import Mathlib

/-!
Shallow embedding of the NESO-Spack package recipes (hipsycl, adaptivecpp,
dpcpp, neso, nektar, stdpython) and proofs about their configuration logic:
the post-install JSON patching, the filesystem-search error handling, the
environment-variable composition, version-pinning constraint strings,
sanitizer-variant validation, CMake flag generation, and the Python
extension path merging.

Filesystem effects are passed in explicitly: the results of each
`filesystem.find` / `glob` call are inputs, file reads are a function from
path to parsed content, and the functions return the data they would write
(or the exception they would raise) instead of performing I/O.
-/

set_option maxHeartbeats 1000000

/-- Exceptions the recipes can raise: Spack `InstallError`, Python `KeyError`
and `IndexError` and `TypeError`, Spack `SpackError`/`SpecError`, and Python
`RuntimeError`. -/
inductive PyErr where
  | installError (msg : String)
  | keyError (key : String)
  | typeError
  | indexError
  | specError (msg : String)
  | runtimeError (msg : String)
  deriving DecidableEq, Repr

instance {ε α : Type} [DecidableEq ε] [DecidableEq α] : DecidableEq (Except ε α) := fun x y =>
  match x, y with
  | .error e, .error f => decidable_of_iff (e = f) (by simp)
  | .error _, .ok _ => isFalse (by simp)
  | .ok _, .error _ => isFalse (by simp)
  | .ok a, .ok b => decidable_of_iff (a = b) (by simp)

/-- Whether an Except result is a raised Spack `InstallError`. -/
def isInstallError {α : Type} : Except PyErr α → Bool
  | .error (.installError _) => true
  | _ => false

/-- JSON values as the patching code distinguishes them: the keys it touches
hold strings; every other value (number, boolean, null, array, object) is
opaque to the patching logic and modelled by the remaining constructors,
with `other` standing for arrays and objects. -/
inductive JVal where
  | str (s : String)
  | num (n : Int)
  | boolean (b : Bool)
  | null
  | other (tag : Nat)
  deriving DecidableEq, Repr

/-- A parsed JSON configuration object: insertion-ordered key/value pairs,
as a Python `dict` loaded by `json.load` (keys are unique in a parsed file,
though no lemma below needs that). -/
def Config : Type := List (String × JVal)

instance : DecidableEq Config := by unfold Config; infer_instance

/-- Python `d[k]` as a total lookup: the value at the first matching key. -/
def lookupKey (c : Config) (k : String) : Option JVal :=
  match c with
  | [] => none
  | (k', v) :: rest => if k' = k then some v else lookupKey rest k

/-- Python `k in d.keys()`. -/
def hasKey (c : Config) (k : String) : Bool :=
  (lookupKey c k).isSome

/-- Python `d[k] = v`: update the value in place when the key exists
(keeping its position), append the pair otherwise. -/
def setKey (c : Config) (k : String) (v : JVal) : Config :=
  match c with
  | [] => [(k, v)]
  | (k', v') :: rest => if k' = k then (k', v) :: rest else (k', v') :: setKey rest k v

/-- Python `d[k] += suffix` on a JSON config: `KeyError` when the key is
absent, `TypeError` when its value is not a string. -/
def appendToStrKey (c : Config) (k : String) (suffix : String) : Except PyErr Config :=
  match lookupKey c k with
  | none => .error (.keyError k)
  | some (.str s) => .ok (setKey c k (.str (s ++ suffix)))
  | some _ => .error .typeError

/-- Last index of a character in a character list, plus one (0 when absent):
the `p.rfind(sep) + 1` step of `posixpath.dirname`. -/
def rfindSucc (sep : Char) : List Char → Nat
  | [] => 0
  | c :: cs =>
    let r := rfindSucc sep cs
    if r = 0 then (if c = sep then 1 else 0) else r + 1

/-- Drop trailing occurrences of a character: Python `str.rstrip(sep)`. -/
def dropTrailing (sep : Char) (l : List Char) : List Char :=
  (l.reverse.dropWhile (fun c => c = sep)).reverse

/-- Python `os.path.dirname` for POSIX paths, translated from
`posixpath.dirname`: everything before the final slash, with trailing
slashes stripped unless the head is all slashes. -/
def pyDirname (p : String) : String :=
  let i := rfindSucc '/' p.data
  let head := p.data.take i
  if head ≠ [] ∧ head.any (fun c => c ≠ '/') then
    String.mk (dropTrailing '/' head)
  else
    String.mk head

/-- Python `os.path.join` for POSIX paths and one relative or absolute
component. -/
def pyJoin (a b : String) : String :=
  if b.startsWith "/" then b
  else if a = "" then b
  else if a.endsWith "/" then a ++ b
  else a ++ "/" ++ b

/-- The contents of a Python `set` of strings built by repeated `add`,
represented canonically in insertion order; the iteration order a given run
uses is a separate enumeration function applied to these contents. -/
def pySetAdd (l : List String) (x : String) : List String :=
  if x ∈ l then l else l ++ [x]

/-- Python `" ".join(...)`. -/
def joinSpace (l : List String) : String :=
  String.intercalate " " l

namespace Hipsycl

/-- The contents of the `rpaths` set built by `Hipsycl.filter_config_file`:
the directory of the unique `libc++.so` match and of the unique
`libc++abi.so` match. -/
def rpathSet (libcxxFinds libcxxabiFinds : List String) : List String :=
  pySetAdd (pySetAdd [] (pyDirname (libcxxFinds.headD "")))
    (pyDirname (libcxxabiFinds.headD ""))

/-- Translation of `Hipsycl.filter_config_file` (hipsycl/package.py lines
197-239). Inputs are the results of the two `filesystem.find` calls for
`syclcc.json` under the install tree and for `libc++.so` / `libc++abi.so`
under the llvm installation, the file reader, the real C++ compiler path,
whether llvm is in the spec, and the iteration order the run's Python set
uses. The result is the written file: its path and its new JSON content. -/
def filter_config_file (syclccFinds : List String) (readJson : String → Config)
    (compilerCxx : String) (llvmInSpec : Bool)
    (libcxxFinds libcxxabiFinds : List String)
    (setOrder : List String → List String) : Except PyErr (String × Config) :=
  if syclccFinds.length ≠ 1 then
    .error (.installError "installed hipSYCL must provide a unique compiler driver configuration file")
  else
    let p := syclccFinds.headD ""
    let config := setKey (readJson p) "default-cpu-cxx" (.str compilerCxx)
    if llvmInSpec then
      if libcxxFinds.length ≠ 1 then
        .error (.installError "concretized llvm dependency must provide a unique directory containing libc++.so")
      else if libcxxabiFinds.length ≠ 1 then
        .error (.installError "concretized llvm dependency must provide a unique directory containing libc++abi.so")
      else
        let rpaths := setOrder (rpathSet libcxxFinds libcxxabiFinds)
        (appendToStrKey config "default-cuda-link-line"
            (" " ++ joinSpace (rpaths.map (fun q => "-rpath " ++ q)))).bind
          (fun c2 => .ok (p, c2))
    else
      .ok (p, config)

end Hipsycl

namespace Hipsycl

/-- Translation of `Hipsycl.cmake_args` (hipsycl/package.py lines 99-195).
Inputs: the spec's variant/dependency state, the results of the two
`filesystem.find` calls under the llvm installation tree, llvm's `bin`
directory and whether `bin/clang++` is an executable, the cuda
installation's root, and the recursive glob for `nvc++` under nvhpc. -/
def cmake_args (llvmInSpec cudaVariant nvcxxVariant : Bool)
    (llvmExportsFinds clangIncludeFinds : List String)
    (llvmBinDir : String) (clangExeOk : Bool)
    (cudaRoot : String) (nvcppGlob : List String) : Except PyErr (List String) :=
  let args0 := ["-DWITH_CPU_BACKEND:Bool=TRUE", "-DWITH_ROCM_BACKEND:Bool=FALSE"]
  let llvmPart : Except PyErr (List String) :=
    if llvmInSpec then
      if llvmExportsFinds.length ≠ 1 then
        .error (.installError "concretized llvm dependency must provide a unique directory containing CMake client files")
      else if clangIncludeFinds.length ≠ 1 then
        .error (.installError "concretized llvm dependency must provide a unique directory containing clang internal headers")
      else if ¬clangExeOk then
        .error (.installError "concretized llvm dependency must provide a valid clang++ executable")
      else
        .ok (args0 ++ ["-DDISABLE_LLVM_VERSION_CHECK:Bool=TRUE",
          "-DLLVM_DIR:String=" ++ pyDirname (llvmExportsFinds.headD ""),
          "-DCLANG_INCLUDE_PATH:String=" ++ pyDirname (clangIncludeFinds.headD ""),
          "-DCLANG_EXECUTABLE_PATH:String=" ++ pyJoin llvmBinDir "clang++"])
    else
      .ok (args0 ++ ["-DCMAKE_C_FLAGS=-fopenmp", "-DCMAKE_CXX_FLAGS=-fopenmp"])
  llvmPart.bind (fun args1 =>
    let args2 := args1 ++
      (if cudaVariant || nvcxxVariant then
        ["-DCUDA_TOOLKIT_ROOT_DIR:String=" ++ cudaRoot, "-DWITH_CUDA_BACKEND:Bool=TRUE"]
      else
        ["-DWITH_CUDA_BACKEND:Bool=FALSE"])
    let nvcxxPart : Except PyErr (List String) :=
      if nvcxxVariant then
        if nvcppGlob.length < 1 then
          .error (.installError "Failed to find nvc++ executable")
        else
          .ok (["-DNVCXX_COMPILER=" ++ nvcppGlob.headD ""] ++
            (if ¬llvmInSpec then ["-DWITH_CUDA_NVCXX_ONLY=ON"] else []))
      else .ok []
    nvcxxPart.bind (fun args3 =>
      .ok (args2 ++ args3 ++
        (if ¬llvmInSpec then ["-DWITH_ACCELERATED_CPU=OFF", "-DBUILD_CLANG_PLUGIN=OFF"] else []))))

end Hipsycl

/-- Python `if kx in config.keys(): config[kx] += suffix`: append to the
string value when the key is present, leave the config unchanged otherwise. -/
def applyIfHasKey (c : Config) (k suffix : String) : Except PyErr Config :=
  if hasKey c k then appendToStrKey c k suffix else .ok c

namespace Adaptivecpp

/-- The contents of the `rpaths` set built by `Adaptivecpp.filter_config_file`:
the directories of the `libc++.so`, `libc++abi.so` and (first) `libomp.so`
matches, in insertion order. -/
def rpathSet (libcxxFinds libcxxabiFinds libompFinds : List String) : List String :=
  pySetAdd (pySetAdd (pySetAdd [] (pyDirname (libcxxFinds.headD "")))
    (pyDirname (libcxxabiFinds.headD ""))) (pyDirname (libompFinds.headD ""))

/-- The rpath block of `Adaptivecpp.filter_config_file` (adaptivecpp/package.py
lines 485-495): extend `default-cuda-link-line` in the cuda config when one
exists, in the main config otherwise, and only when the key is present. -/
def cudaLinkStep (config : Config) (cudaConfig : Option (String × Config))
    (suffix : String) : Except PyErr (Config × Option (String × Config)) :=
  match cudaConfig with
  | some (cp, cc) =>
    (applyIfHasKey cc "default-cuda-link-line" suffix).bind
      (fun cc2 => .ok (config, some (cp, cc2)))
  | none =>
    (applyIfHasKey config "default-cuda-link-line" suffix).bind
      (fun c2 => .ok (c2, none))

/-- The llvm block of `Adaptivecpp.filter_config_file` (lines 461-502):
check the `libc++.so` and `libc++abi.so` searches are unique, take the first
`libomp.so` match without any check (`so_paths[0]` raises `IndexError` when
the search is empty), then extend the cuda and omp link lines with `-rpath`
and `-Wl,-rpath` entries in the set's iteration order. -/
def llvmStep (llvmInSpec : Bool) (libcxxFinds libcxxabiFinds libompFinds : List String)
    (setOrder : List String → List String) (config : Config)
    (cudaConfig : Option (String × Config)) :
    Except PyErr (Config × Option (String × Config)) :=
  if llvmInSpec then
    if libcxxFinds.length ≠ 1 then
      .error (.installError "concretized llvm dependency must provide a unique directory containing libc++.so")
    else if libcxxabiFinds.length ≠ 1 then
      .error (.installError "concretized llvm dependency must provide a unique directory containing libc++abi.so")
    else if libompFinds.length = 0 then
      .error .indexError
    else
      let rp := setOrder (rpathSet libcxxFinds libcxxabiFinds libompFinds)
      (cudaLinkStep config cudaConfig
          (" " ++ joinSpace (rp.map (fun q => "-rpath " ++ q)))).bind
        (fun r =>
          (applyIfHasKey r.1 "default-omp-link-line"
              (" " ++ joinSpace (rp.map (fun q => "-Wl,-rpath " ++ q)))).bind
            (fun c3 => .ok (c3, r.2)))
  else .ok (config, cudaConfig)

/-- Lines 504-513: when the spec uses the nvc++ flow and a cuda config file
exists, append `--no-restrict-keyword` to its cuda link line and cxx flags
when those keys are present. -/
def noRestrictStep (cudanvcxxInSpec : Bool) (cudaConfig : Option (String × Config)) :
    Except PyErr (Option (String × Config)) :=
  if cudanvcxxInSpec then
    match cudaConfig with
    | some (cp, cc) =>
      (applyIfHasKey cc "default-cuda-link-line" " --no-restrict-keyword").bind
        (fun cc1 =>
          (applyIfHasKey cc1 "default-cuda-cxx-flags" " --no-restrict-keyword").bind
            (fun cc2 => .ok (some (cp, cc2))))
    | none => .ok none
  else .ok cudaConfig

/-- The `map_variant_to_target` dict of lines 524-530, looked up at the
compilation flow (`none` stands for Python's `KeyError`); `suffix` is the
already-computed cuda-arch suffix. -/
def mapVariantToTarget (suffix flow : String) : Option String :=
  if flow = "omplibraryonly" then some "omp.library-only"
  else if flow = "ompaccelerated" then some "omp.accelerated"
  else if flow = "cudallvm" then some ("cuda" ++ suffix)
  else if flow = "cudanvcxx" then some ("cuda-nvcxx" ++ suffix)
  else if flow = "generic" then some "generic"
  else none

/-- The `cuda_arch` suffix of lines 515-520: empty when the arch is `none`,
`:sm_<arch>` for the cudallvm flow, `:cc<arch>` for the cudanvcxx flow. -/
def archSuffix (flow cudaArch : String) : String :=
  if cudaArch ≠ "none" then
    (if flow = "cudallvm" then ":sm_" ++ cudaArch
     else if flow = "cudanvcxx" then ":cc" ++ cudaArch
     else "")
  else ""

/-- Lines 515-535: compute the cuda-arch suffix and overwrite
`default-targets` with the target of the chosen compilation flow when the
key is present in the config. -/
def targetsStep (flow cudaArch : String) (config : Config) : Except PyErr Config :=
  if hasKey config "default-targets" then
    match mapVariantToTarget (archSuffix flow cudaArch) flow with
    | some t => .ok (setKey config "default-targets" (.str t))
    | none => .error (.keyError flow)
  else .ok config

/-- Translation of `Adaptivecpp.filter_config_file` (adaptivecpp/package.py
lines 423-544). Inputs mirror the method's reads: the `+nvcxx` variant, the
`compilationflow` and `cuda_arch` variant values, the find results for the
main config file (`syclcc.json`/`acpp-core.json`) and for `acpp-cuda.json`,
the file reader, the real C++ compiler, whether llvm is in the spec, the
three shared-library searches under llvm, and the run's set iteration
order. The result is the written main config file and, when an
`acpp-cuda.json` was found, the written cuda config file. -/
def filter_config_file (nvcxxVariant : Bool) (flow cudaArch : String)
    (configFinds cudaFinds : List String) (readJson : String → Config)
    (compilerCxx : String) (llvmInSpec : Bool)
    (libcxxFinds libcxxabiFinds libompFinds : List String)
    (setOrder : List String → List String) :
    Except PyErr ((String × Config) × Option (String × Config)) :=
  let cudanvcxxInSpec := nvcxxVariant || flow == "cudanvcxx"
  if configFinds.length ≠ 1 then
    .error (.installError "installed AdaptiveCPP must provide a unique compiler driver configuration file")
  else
    let p := configFinds.headD ""
    let config := setKey (readJson p) "default-cpu-cxx" (.str compilerCxx)
    let cudaConfig :=
      if cudaFinds.length > 0 then
        some (cudaFinds.headD "", readJson (cudaFinds.headD ""))
      else none
    (llvmStep llvmInSpec libcxxFinds libcxxabiFinds libompFinds setOrder config cudaConfig).bind
      (fun r =>
        (noRestrictStep cudanvcxxInSpec r.2).bind
          (fun cu3 =>
            (targetsStep flow cudaArch r.1).bind
              (fun c3 => .ok ((p, c3), cu3))))

/-- Translation of `Adaptivecpp.cmake_args` (adaptivecpp/package.py lines
299-421), with the same filesystem inputs as `Hipsycl.cmake_args` plus the
compilation flow, cuda arch and opencl variants. -/
def cmake_args (flow cudaArch : String)
    (cudaVariant nvcxxVariant openclVariant llvmInSpec : Bool)
    (llvmExportsFinds clangIncludeFinds : List String)
    (llvmBinDir : String) (clangExeOk : Bool)
    (cudaRoot : String) (nvcppGlob : List String) : Except PyErr (List String) :=
  if flow = "cudallvm" ∧ cudaArch = "none" then
    .error (.specError "cudallvm requires cuda_arch to be set")
  else
    let args0 := ["-DACPP_VERSION_SUFFIX=spack", "-DWITH_CPU_BACKEND:Bool=TRUE",
      "-DWITH_ROCM_BACKEND:Bool=FALSE", "-DWITH_STDPAR_COMPILER:Bool=FALSE"]
    let cudallvmIn := cudaVariant || (flow == "cudallvm")
    let cudanvcxxIn := nvcxxVariant || (flow == "cudanvcxx")
    let llvmPart : Except PyErr (List String) :=
      if llvmInSpec then
        if llvmExportsFinds.length ≠ 1 then
          .error (.installError "concretized llvm dependency must provide a unique directory containing CMake client files")
        else if clangIncludeFinds.length ≠ 1 then
          .error (.installError "concretized llvm dependency must provide a unique directory containing clang internal headers")
        else if ¬clangExeOk then
          .error (.installError "concretized llvm dependency must provide a valid clang++ executable")
        else
          .ok (args0 ++ ["-DDISABLE_LLVM_VERSION_CHECK:Bool=TRUE",
            "-DLLVM_DIR:String=" ++ pyDirname (llvmExportsFinds.headD ""),
            "-DCLANG_INCLUDE_PATH:String=" ++ pyDirname (clangIncludeFinds.headD ""),
            "-DCLANG_EXECUTABLE_PATH:String=" ++ pyJoin llvmBinDir "clang++"])
      else .ok args0
    llvmPart.bind (fun args1 =>
      let args2 := args1 ++
        (if cudallvmIn || cudanvcxxIn then
          ["-DCUDA_TOOLKIT_ROOT_DIR:String=" ++ cudaRoot, "-DWITH_CUDA_BACKEND:Bool=TRUE"]
        else
          ["-DWITH_CUDA_BACKEND:Bool=FALSE", "-DDISABLE_FIND_PACKAGE_CUDA=TRUE"])
      let nvcxxPart : Except PyErr (List String) :=
        if cudanvcxxIn then
          if nvcppGlob.length < 1 then
            .error (.installError "Failed to find nvc++ executable")
          else
            .ok (["-DNVCXX_COMPILER=" ++ nvcppGlob.headD ""] ++
              (if ¬llvmInSpec then ["-DWITH_CUDA_NVCXX_ONLY=ON"] else []))
        else .ok []
      nvcxxPart.bind (fun args3 =>
        .ok (args2 ++ args3 ++
          (if ¬llvmInSpec then
            ["-DWITH_SSCP_COMPILER:Bool=FALSE", "-DWITH_OPENCL_BACKEND=OFF",
             "-DWITH_ACCELERATED_CPU=OFF", "-DBUILD_CLANG_PLUGIN=OFF"]
          else []) ++
          (if openclVariant then
            ["-DWITH_SSCP_COMPILER:Bool=TRUE", "-DWITH_OPENCL_BACKEND=ON"]
          else []))))

end Adaptivecpp

/-- One accumulated modification of a Spack `EnvironmentModifications`
object: the dpcpp recipe only uses `set`, `append_path` and
`prepend_path`. -/
inductive EnvMod where
  | setVar (var val : String)
  | appendPath (var val : String)
  | prependPath (var val : String)
  deriving DecidableEq, Repr

/-- The environment variable a modification names. -/
def modVar : EnvMod → String
  | .setVar v _ => v
  | .appendPath v _ => v
  | .prependPath v _ => v

/-- Python `var in env` on an `EnvironmentModifications` object: whether any
accumulated modification names the variable. -/
def envHasVar (env : List EnvMod) (v : String) : Bool :=
  env.any (fun m => modVar m == v)

namespace Dpcpp

/-- `Dpcpp._oneapi_root`: the intel-oneapi-compilers install root. -/
def oneapiRoot (oneapi : String) : String := oneapi

/-- `Dpcpp._compiler_dir`: `<root>/compiler/latest/bin`. -/
def compilerDir (root : String) : String :=
  pyJoin (pyJoin (pyJoin (oneapiRoot root) "compiler") "latest") "bin"

/-- `Dpcpp._oneapi_tbb_root`: `<root>/tbb/latest`. -/
def oneapiTbbRoot (root : String) : String :=
  pyJoin (pyJoin (oneapiRoot root) "tbb") "latest"

/-- `Dpcpp._library_paths` (dpcpp/package.py lines 206-214). -/
def libraryPaths (root : String) : List String :=
  [pyJoin (pyDirname (compilerDir root)) "lib",
   pyJoin (pyJoin (pyDirname (compilerDir root)) "lib") "x64",
   pyJoin (pyJoin (pyJoin (pyDirname (compilerDir root)) "compiler") "lib") "intel64_lin",
   pyJoin (pyJoin (pyDirname (compilerDir root)) "compiler") "lib"]

/-- Translation of `Dpcpp._setup_common_dependent_environment`
(dpcpp/package.py lines 219-271), statement by statement: each Spack env
call appends one modification, the loop over `_library_paths` appends an
LD_LIBRARY_PATH and a LIBRARY_PATH entry per path, and the two SYCL hint
variables are set only when no accumulated modification names them yet. -/
def _setup_common_dependent_environment (root : String) (env : List EnvMod) :
    List EnvMod :=
  let e1 := env ++ [.setVar "ONEAPI_ROOT" (oneapiRoot root)]
  let e2 := e1 ++ [.appendPath "PATH" (compilerDir root)]
  let e3 := e2 ++ (libraryPaths root).flatMap
    (fun p => [.appendPath "LD_LIBRARY_PATH" p, .appendPath "LIBRARY_PATH" p])
  let e4 := e3 ++ [.prependPath "PKG_CONFIG_PATH"
    (pyJoin (pyJoin (pyDirname (pyDirname (compilerDir root))) "lib") "pkgconfig")]
  let e5 := if envHasVar e4 "SYCL_INCLUDE_DIR_HINT" then e4
    else e4 ++ [.setVar "SYCL_INCLUDE_DIR_HINT" (pyDirname (compilerDir root))]
  let e6 := if envHasVar e5 "SYCL_LIBRARY_DIR_HINT" then e5
    else e5 ++ [.setVar "SYCL_LIBRARY_DIR_HINT" (pyDirname (compilerDir root))]
  let e7 := e6 ++ [.appendPath "OCL_ICD_FILENAMES"
    (pyJoin (pyJoin (pyDirname (compilerDir root)) "lib") "libintelocl.so")]
  let e8 := e7 ++ [.setVar "TBBROOT" (oneapiTbbRoot root)]
  let tbbLib := pyJoin (pyJoin (pyJoin (oneapiTbbRoot root) "lib") "intel64") "gcc4.8"
  let e9 := e8 ++ [.appendPath "LD_LIBRARY_PATH" tbbLib,
                   .appendPath "LIBRARY_PATH" tbbLib]
  e9 ++ [.appendPath "C_INCLUDE_PATH" (pyJoin (oneapiTbbRoot root) "include"),
         .appendPath "CPLUS_INCLUDE_PATH" (pyJoin (oneapiTbbRoot root) "include"),
         .appendPath "CMAKE_PREFIX_PATH" (oneapiTbbRoot root),
         .appendPath "PKG_CONFIG_PATH"
           (pyJoin (pyJoin (oneapiTbbRoot root) "lib") "pkgconfig")]

/-- `Dpcpp.setup_dependent_build_environment` (lines 273-274). -/
def setup_dependent_build_environment (root : String) (env : List EnvMod)
    (dependentSpec : String) : List EnvMod :=
  _setup_common_dependent_environment root env

/-- `Dpcpp.setup_dependent_run_environment` (lines 276-279). -/
def setup_dependent_run_environment (root : String) (env : List EnvMod)
    (dependentSpec : String) : List EnvMod :=
  _setup_common_dependent_environment root env

/-- `Dpcpp.setup_run_environment` (lines 281-283). -/
def setup_run_environment (root : String) (env : List EnvMod) : List EnvMod :=
  _setup_common_dependent_environment root env

/-- The flat sequence of modifications `_setup_common_dependent_environment`
appends, as a function of the install root and of whether the incoming
environment already names the two SYCL hint variables. -/
def commonMods (root : String) (hasInc hasLib : Bool) : List EnvMod :=
  [.setVar "ONEAPI_ROOT" (oneapiRoot root),
   .appendPath "PATH" (compilerDir root),
   .appendPath "LD_LIBRARY_PATH" (pyJoin (pyDirname (compilerDir root)) "lib"),
   .appendPath "LIBRARY_PATH" (pyJoin (pyDirname (compilerDir root)) "lib"),
   .appendPath "LD_LIBRARY_PATH" (pyJoin (pyJoin (pyDirname (compilerDir root)) "lib") "x64"),
   .appendPath "LIBRARY_PATH" (pyJoin (pyJoin (pyDirname (compilerDir root)) "lib") "x64"),
   .appendPath "LD_LIBRARY_PATH"
     (pyJoin (pyJoin (pyJoin (pyDirname (compilerDir root)) "compiler") "lib") "intel64_lin"),
   .appendPath "LIBRARY_PATH"
     (pyJoin (pyJoin (pyJoin (pyDirname (compilerDir root)) "compiler") "lib") "intel64_lin"),
   .appendPath "LD_LIBRARY_PATH" (pyJoin (pyJoin (pyDirname (compilerDir root)) "compiler") "lib"),
   .appendPath "LIBRARY_PATH" (pyJoin (pyJoin (pyDirname (compilerDir root)) "compiler") "lib"),
   .prependPath "PKG_CONFIG_PATH"
     (pyJoin (pyJoin (pyDirname (pyDirname (compilerDir root))) "lib") "pkgconfig")] ++
  (if hasInc then []
   else [.setVar "SYCL_INCLUDE_DIR_HINT" (pyDirname (compilerDir root))]) ++
  (if hasLib then []
   else [.setVar "SYCL_LIBRARY_DIR_HINT" (pyDirname (compilerDir root))]) ++
  [.appendPath "OCL_ICD_FILENAMES"
     (pyJoin (pyJoin (pyDirname (compilerDir root)) "lib") "libintelocl.so"),
   .setVar "TBBROOT" (oneapiTbbRoot root),
   .appendPath "LD_LIBRARY_PATH"
     (pyJoin (pyJoin (pyJoin (oneapiTbbRoot root) "lib") "intel64") "gcc4.8"),
   .appendPath "LIBRARY_PATH"
     (pyJoin (pyJoin (pyJoin (oneapiTbbRoot root) "lib") "intel64") "gcc4.8"),
   .appendPath "C_INCLUDE_PATH" (pyJoin (oneapiTbbRoot root) "include"),
   .appendPath "CPLUS_INCLUDE_PATH" (pyJoin (oneapiTbbRoot root) "include"),
   .appendPath "CMAKE_PREFIX_PATH" (oneapiTbbRoot root),
   .appendPath "PKG_CONFIG_PATH" (pyJoin (pyJoin (oneapiTbbRoot root) "lib") "pkgconfig")]

end Dpcpp

namespace Neso

/-- The declared values of the neso `sanitizer` variant
(neso/package.py lines 77-91). -/
def sanitizerValues : List String :=
  ["none", "address", "leak", "thread", "memory", "undefined_behaviour"]

/-- Translation of `_validate_sanitizer_variant` (neso/package.py lines
17-32): the first offending combination raises a `SpecError`. -/
def _validate_sanitizer_variant (values : List String) : Except PyErr Unit :=
  if "none" ∈ values ∧ values.length > 1 then
    .error (.specError "sanitizer variant value 'none' can not be combined with any other values.")
  else if "thread" ∈ values ∧
      ("address" ∈ values ∨ "leak" ∈ values ∨ "memory" ∈ values) then
    .error (.specError "'thread' sanitizer can not be combined with 'address', 'leak', or 'memory' sanitizers")
  else if "memory" ∈ values ∧ ("address" ∈ values ∨ "leak" ∈ values) then
    .error (.specError "'memory' sanitizer can not be combined with 'address' or 'leak' sanitizers")
  else .ok ()

end Neso

namespace Nektar

/-- The variant and dependency state of a concretized nektar spec that
`Nektar.cmake_args` reads: the eight declared variants it translates plus
the two dependency tests (`^intel-oneapi-mkl`, `^openblas`). -/
structure Spec where
  mpi : Bool
  fftw : Bool
  arpack : Bool
  hdf5 : Bool
  scotch : Bool
  demos : Bool
  solvers : Bool
  python : Bool
  mkl : Bool
  openblas : Bool

/-- The inner `hasfeature` helper of `Nektar.cmake_args`: `"ON"` when the
feature is in the spec, `"OFF"` otherwise. -/
def hasfeature (b : Bool) : String := if b then "ON" else "OFF"

/-- Translation of `Nektar.cmake_args` (nektar/package.py lines 68-88), in
source order. -/
def cmake_args (s : Spec) : List String :=
  ["-DNEKTAR_BUILD_DEMOS=" ++ hasfeature s.demos,
   "-DNEKTAR_BUILD_SOLVERS=" ++ hasfeature s.solvers,
   "-DNEKTAR_USE_MPI=" ++ hasfeature s.mpi,
   "-DNEKTAR_USE_FFTW=" ++ hasfeature s.fftw,
   "-DNEKTAR_USE_ARPACK=" ++ hasfeature s.arpack,
   "-DNEKTAR_USE_HDF5=" ++ hasfeature s.hdf5,
   "-DNEKTAR_USE_SCOTCH=" ++ hasfeature s.scotch,
   "-DNEKTAR_USE_PETSC=OFF",
   "-DNEKTAR_ERROR_ON_WARNINGS=OFF",
   "-DNEKTAR_USE_MKL=" ++ hasfeature s.mkl,
   "-DNEKTAR_USE_OPENBLAS=" ++ hasfeature s.openblas,
   "-DNEKTAR_BUILD_PYTHON=" ++ hasfeature s.python,
   "-DNEKTAR_BUILD_UTILITIES=ON",
   "-DNEKTAR_USE_THREAD_SAFETY=ON"]

end Nektar

/-- Split a character list at commas, as `str.split(",")` would: used to
give semantics to the union version ranges `_restrict_to_version` builds. -/
def splitOnComma : List Char → List (List Char)
  | [] => [[]]
  | c :: cs =>
    match splitOnComma cs with
    | [] => [[c]]
    | h :: t => if c = ',' then [] :: h :: t else (c :: h) :: t

/-- Modelled from the spec: Spack's satisfaction relation for one range of
a version constraint, for the ranges `_restrict_to_version` emits. A range
`:hi` is satisfied by versions at or below `hi`, a range `lo:` by versions
at or above `lo`; versions are compared through a rank function (higher
rank means higher version). Spack's own constraint engine is external to
this repository. -/
def rangePieceSatisfies (rank : String → Nat) (w : String) (p : List Char) : Bool :=
  if p.head? = some ':' then decide (rank w ≤ rank (String.mk (p.drop 1)))
  else if p.getLast? = some ':' then decide (rank (String.mk p.dropLast) ≤ rank w)
  else false

/-- Modelled from the spec: Spack satisfaction of a comma-separated union
of version ranges, as produced by `_restrict_to_version`. -/
def spackRangeSatisfies (rank : String → Nat) (constraint w : String) : Bool :=
  (splitOnComma constraint.data).any (rangePieceSatisfies rank w)

/-- Translation of `_restrict_to_version` (dpcpp/package.py lines 117-126
and neso/package.py lines 48-57): a constraint string that excludes all but
`versions[idx]`, for `versions` sorted in descending order. Python's
`versions[-2]` is `versions[len - 2]`. -/
def _restrict_to_version (versions : List String) (idx : Nat) : String :=
  if idx = 0 then ":" ++ versions.getD 1 ""
  else if idx = versions.length - 1 then
    versions.getD (versions.length - 2) "" ++ ":"
  else
    ":" ++ versions.getD (idx + 1) "" ++ "," ++ versions.getD (idx - 1) "" ++ ":"

namespace Stdpython

/-- Spack `version.up_to(n)` for a dotted numeric version: the first `n`
components joined with dots. -/
def versionUpTo (version : List Nat) (n : Nat) : String :=
  String.intercalate "." ((version.take n).map toString)

/-- The `for ... if os.path.exists(path): return` loop of
`Stdpython.command`: the first candidate path that exists. -/
def findFirstExisting (fsExists : String → Bool) : List String → Option String
  | [] => none
  | p :: rest => if fsExists p then some p else findFirstExisting fsExists rest

/-- Translation of the `Stdpython.command` property
(stdpython/package.py lines 565-595): try `python<X.Y>`, `python<X>`,
`python` under `prefix.bin` in that order and raise a `RuntimeError` when
none exists. -/
def command (version : List Nat) (binDir : String) (fsExists : String → Bool) :
    Except PyErr String :=
  match findFirstExisting fsExists
      ([versionUpTo version 2, versionUpTo version 1, ""].map
        (fun ver => pyJoin binDir ("python" ++ ver))) with
  | some p => .ok p
  | none => .error (.runtimeError "Unable to locate python command")

end Stdpython

namespace Stdpython

/-- One installed extension as `write_easy_install_pth` sees it: its
package name and, when its installation has an `easy-install.pth` file,
that file's lines (`none` models `os.path.isfile` returning false). The
function iterates `sorted(exts.values())`; the list here is that already
sorted sequence. -/
structure Ext where
  name : String
  lines : Option (List String)

/-- Python `line.rstrip()`: drop trailing whitespace. -/
def rstripAll (s : String) : String :=
  String.mk ((s.data.reverse.dropWhile Char.isWhitespace).reverse)

/-- The regex test `re.search(r'setuptools.*egg$', line)`: the line ends in
`egg` and contains `setuptools` before that suffix. -/
def isSetuptoolsEgg (line : String) : Bool :=
  "egg".data.isSuffixOf line.data &&
    decide ("setuptools".data <:+: line.data.take (line.data.length - 3))

/-- The three `continue` filters of `write_easy_install_pth`
(stdpython/package.py lines 1004-1011), applied to the rstripped line. -/
def lineSkipped (extName : String) (line : String) : Bool :=
  line = "" || "import".data.isPrefixOf line.data || "#".data.isPrefixOf line.data ||
    (extName ≠ "py-setuptools" && isSetuptoolsEgg line)

/-- The lines of one extension's `easy-install.pth` that survive the
filters, in file order. -/
def keptLines (ext : Ext) : List String :=
  match ext.lines with
  | none => []
  | some ls => (ls.map rstripAll).filter (fun l => !(lineSkipped ext.name l))

/-- One `if line not in unique_paths: unique_paths.add(line);
paths.append(line)` step (the set mirrors the list's membership). -/
def collectStep (acc : List String) (l : String) : List String :=
  if l ∈ acc then acc else acc ++ [l]

/-- The `paths` list after the two nested loops of
`write_easy_install_pth`. -/
def collectPaths (exts : List Ext) : List String :=
  exts.foldl (fun acc ext => (keptLines ext).foldl collectStep acc) []

/-- The effect of `write_easy_install_pth` on the main `easy-install.pth`:
either the file is removed when present (so it is absent afterwards), or it
is written with the given lines. -/
inductive WriteResult where
  | removed
  | written (lines : List String)
  deriving DecidableEq, Repr

/-- The fixed first line written to the main pth file. -/
def pthHeader : String := "import sys; sys.__plen = len(sys.path)"

/-- The fixed last line written to the main pth file. -/
def pthFooter : String :=
  "import sys; new=sys.path[sys.__plen:]; del sys.path[sys.__plen:]; p=getattr(sys,\x27__egginsert\x27,0); sys.path[p:p]=new; sys.__egginsert = p+len(new)"

/-- Translation of `Stdpython.write_easy_install_pth`
(stdpython/package.py lines 987-1032). -/
def write_easy_install_pth (exts : List Ext) : WriteResult :=
  let paths := collectPaths exts
  if paths = [] then .removed
  else .written (pthHeader :: paths ++ [pthFooter])

end Stdpython

theorem except_bind_ok {ε α β : Type} (x : Except ε α) (f : α → Except ε β) (b : β) :
    x.bind f = .ok b ↔ ∃ a, x = .ok a ∧ f a = .ok b := by
  cases x <;> simp [Except.bind]

theorem except_bind_isInstallError {α β : Type} (x : Except PyErr α)
    (f : α → Except PyErr β) (hx : isInstallError x = true) :
    isInstallError (x.bind f) = true := by
  cases x with
  | error e => cases e <;> simp_all [isInstallError, Except.bind]
  | ok a => simp [isInstallError] at hx

theorem lookupKey_setKey_self (c : Config) (k : String) (v : JVal) :
    lookupKey (setKey c k v) k = some v := by
  induction c with
  | nil => simp [setKey, lookupKey]
  | cons hd tl ih =>
    obtain ⟨k', v'⟩ := hd
    by_cases h : k' = k <;> simp [setKey, lookupKey, h, ih]

theorem lookupKey_setKey_ne (c : Config) (k k' : String) (v : JVal) (h : k' ≠ k) :
    lookupKey (setKey c k v) k' = lookupKey c k' := by
  induction c with
  | nil => simp [setKey, lookupKey, Ne.symm h]
  | cons hd tl ih =>
    obtain ⟨k'', v''⟩ := hd
    by_cases h2 : k'' = k
    · subst h2
      have hne : ¬(k'' = k') := fun h' => h h'.symm
      simp [setKey, lookupKey, hne]
    · simp [setKey, lookupKey, h2, ih]

theorem hasKey_setKey (c : Config) (k k' : String) (v : JVal) :
    hasKey (setKey c k v) k' = ((k' = k : Bool) || hasKey c k') := by
  by_cases h : k' = k
  · subst h; simp [hasKey, lookupKey_setKey_self]
  · simp [hasKey, lookupKey_setKey_ne c k k' v h, h]

theorem appendToStrKey_ok (c c2 : Config) (k s : String)
    (h : appendToStrKey c k s = .ok c2) :
    ∃ s0, lookupKey c k = some (.str s0) ∧ c2 = setKey c k (.str (s0 ++ s)) := by
  unfold appendToStrKey at h
  split at h
  · exact absurd h (by simp)
  · rename_i s0 heq
    exact ⟨s0, heq, by injection h with h2; exact h2.symm⟩
  · exact absurd h (by simp)

theorem appendToStrKey_ok_lookup_ne (c c2 : Config) (k k' s : String)
    (h : appendToStrKey c k s = .ok c2) (hne : k' ≠ k) :
    lookupKey c2 k' = lookupKey c k' := by
  obtain ⟨s0, _, rfl⟩ := appendToStrKey_ok c c2 k s h
  exact lookupKey_setKey_ne c k k' _ hne

theorem applyIfHasKey_ok_lookup_ne (c c2 : Config) (k k' s : String)
    (h : applyIfHasKey c k s = .ok c2) (hne : k' ≠ k) :
    lookupKey c2 k' = lookupKey c k' := by
  unfold applyIfHasKey at h
  split at h
  · exact appendToStrKey_ok_lookup_ne c c2 k k' s h hne
  · injection h with h2; rw [h2]

/-- C4. For every input JSON configuration object read from the installed
`syclcc.json`, hipSYCL's `filter_config_file` changes only the key
`default-cpu-cxx` (set to the real C++ compiler) and, when llvm is in the
spec, the key `default-cuda-link-line` (extended by appending `-rpath <dir>`
entries); every other key of the configuration keeps its original value,
and when llvm is not in the spec `default-cuda-link-line` also keeps its
original value. -/
theorem hipsycl_filter_config_file_frame
    (syclccFinds : List String) (readJson : String → Config)
    (compilerCxx : String) (llvmInSpec : Bool)
    (libcxxFinds libcxxabiFinds : List String)
    (setOrder : List String → List String) (out : String × Config)
    (hok : Hipsycl.filter_config_file syclccFinds readJson compilerCxx llvmInSpec
      libcxxFinds libcxxabiFinds setOrder = .ok out) :
    lookupKey out.2 "default-cpu-cxx" = some (.str compilerCxx) ∧
    (∀ k, k ≠ "default-cpu-cxx" → k ≠ "default-cuda-link-line" →
      lookupKey out.2 k = lookupKey (readJson out.1) k) ∧
    (llvmInSpec = false → ∀ k, k ≠ "default-cpu-cxx" →
      lookupKey out.2 k = lookupKey (readJson out.1) k) ∧
    (llvmInSpec = true → ∀ s0,
      lookupKey (readJson out.1) "default-cuda-link-line" = some (.str s0) →
      lookupKey out.2 "default-cuda-link-line" =
        some (.str (s0 ++ (" " ++ joinSpace
          ((setOrder (Hipsycl.rpathSet libcxxFinds libcxxabiFinds)).map
            (fun q => "-rpath " ++ q)))))) := by
  simp only [Hipsycl.filter_config_file] at hok
  split at hok
  · exact absurd hok (by simp)
  · split at hok
    · split at hok
      · exact absurd hok (by simp)
      · split at hok
        · exact absurd hok (by simp)
        · rw [except_bind_ok] at hok
          obtain ⟨c2, happ, hok⟩ := hok
          injection hok with hok2
          subst hok2
          refine ⟨?_, ?_, ?_, ?_⟩
          · rw [appendToStrKey_ok_lookup_ne _ _ _ _ _ happ (by decide)]
            exact lookupKey_setKey_self _ _ _
          · intro k hk1 hk2
            rw [appendToStrKey_ok_lookup_ne _ _ _ _ _ happ hk2]
            exact lookupKey_setKey_ne _ _ _ _ hk1
          · intro hfalse
            simp_all
          · intro _ s0 hs0
            obtain ⟨s0', hlook, hc2⟩ := appendToStrKey_ok _ _ _ _ happ
            rw [lookupKey_setKey_ne _ _ _ _ (by decide)] at hlook
            rw [hs0] at hlook
            injection hlook with hv
            injection hv with hv2
            subst hv2
            rw [hc2]
            exact lookupKey_setKey_self _ _ _
    · injection hok with hok2
      subst hok2
      refine ⟨lookupKey_setKey_self _ _ _, ?_, ?_, ?_⟩
      · intro k hk1 _
        exact lookupKey_setKey_ne _ _ _ _ hk1
      · intro _ k hk1
        exact lookupKey_setKey_ne _ _ _ _ hk1
      · intro htrue
        simp_all

/-- Witness for C4 at a concrete run: llvm in the spec, a config with one
extra key `other-key`, which keeps its value. -/
theorem hipsycl_filter_config_file_frame_witness :
    lookupKey ((Hipsycl.filter_config_file ["/p/syclcc.json"]
      (fun _ => [("default-cpu-cxx", .str "wrap"), ("other-key", .num 7),
                 ("default-cuda-link-line", .str "ld")])
      "/usr/bin/g++" true ["/l/a/libc++.so"] ["/l/b/libc++abi.so"] id).toOption.getD
        ("", [])).2 "other-key" = some (.num 7) :=
  (hipsycl_filter_config_file_frame ["/p/syclcc.json"]
    (fun _ => [("default-cpu-cxx", .str "wrap"), ("other-key", .num 7),
               ("default-cuda-link-line", .str "ld")])
    "/usr/bin/g++" true ["/l/a/libc++.so"] ["/l/b/libc++abi.so"] id
    (("/p/syclcc.json",
      [("default-cpu-cxx", .str "/usr/bin/g++"), ("other-key", .num 7),
       ("default-cuda-link-line", .str "ld -rpath /l/a -rpath /l/b")]))
    (by decide)).2.1 "other-key" (by decide) (by decide)

theorem cudaLinkStep_ok_main_frame (config c2 : Config)
    (cu : Option (String × Config)) (cu2 : Option (String × Config)) (s : String)
    (h : Adaptivecpp.cudaLinkStep config cu s = .ok (c2, cu2)) (k : String)
    (hk : k ≠ "default-cuda-link-line") :
    lookupKey c2 k = lookupKey config k := by
  unfold Adaptivecpp.cudaLinkStep at h
  split at h
  · rw [except_bind_ok] at h
    obtain ⟨cc2, happ, h⟩ := h
    injection h with h2
    injection h2 with ha hb
    rw [← ha]
  · rw [except_bind_ok] at h
    obtain ⟨cc2, happ, h⟩ := h
    injection h with h2
    injection h2 with ha hb
    rw [← ha]
    exact applyIfHasKey_ok_lookup_ne _ _ _ _ _ happ hk

theorem llvmStep_ok_main_frame (llvmInSpec : Bool)
    (libcxxFinds libcxxabiFinds libompFinds : List String)
    (setOrder : List String → List String) (config c2 : Config)
    (cu cu2 : Option (String × Config))
    (h : Adaptivecpp.llvmStep llvmInSpec libcxxFinds libcxxabiFinds libompFinds
      setOrder config cu = .ok (c2, cu2)) (k : String)
    (hk1 : k ≠ "default-cuda-link-line") (hk2 : k ≠ "default-omp-link-line") :
    lookupKey c2 k = lookupKey config k := by
  simp only [Adaptivecpp.llvmStep] at h
  split at h
  · split at h
    · exact absurd h (by simp)
    · split at h
      · exact absurd h (by simp)
      · split at h
        · exact absurd h (by simp)
        · rw [except_bind_ok] at h
          obtain ⟨r, hcuda, h⟩ := h
          rw [except_bind_ok] at h
          obtain ⟨c3, homp, h⟩ := h
          injection h with h2
          injection h2 with ha hb
          rw [← ha]
          rw [applyIfHasKey_ok_lookup_ne _ _ _ _ _ homp hk2]
          exact cudaLinkStep_ok_main_frame _ _ _ _ _ hcuda k hk1
  · injection h with h2
    injection h2 with ha hb
    rw [← ha]

theorem targetsStep_ok_frame (flow cudaArch : String) (c c3 : Config)
    (h : Adaptivecpp.targetsStep flow cudaArch c = .ok c3) (k : String)
    (hk : k ≠ "default-targets") :
    lookupKey c3 k = lookupKey c k := by
  unfold Adaptivecpp.targetsStep at h
  split at h
  · split at h
    · injection h with h2
      rw [← h2]
      exact lookupKey_setKey_ne _ _ _ _ hk
    · exact absurd h (by simp)
  · injection h with h2
    rw [h2]

theorem targetsStep_ok_value (flow cudaArch : String) (c c3 : Config)
    (h : Adaptivecpp.targetsStep flow cudaArch c = .ok c3)
    (hdt : hasKey c "default-targets" = true) :
    ∃ t, Adaptivecpp.mapVariantToTarget (Adaptivecpp.archSuffix flow cudaArch) flow = some t ∧
      lookupKey c3 "default-targets" = some (.str t) := by
  unfold Adaptivecpp.targetsStep at h
  rw [if_pos hdt] at h
  split at h
  · rename_i t hmap
    injection h with h2
    exact ⟨t, hmap, by rw [← h2]; exact lookupKey_setKey_self _ _ _⟩
  · exact absurd h (by simp)

theorem mapVariantToTarget_eq_claim (flow cudaArch t : String)
    (h : Adaptivecpp.mapVariantToTarget (Adaptivecpp.archSuffix flow cudaArch) flow = some t) :
    t = (if flow = "omplibraryonly" then "omp.library-only"
      else if flow = "ompaccelerated" then "omp.accelerated"
      else if flow = "cudallvm" then
        "cuda" ++ (if cudaArch ≠ "none" then ":sm_" ++ cudaArch else "")
      else if flow = "cudanvcxx" then
        "cuda-nvcxx" ++ (if cudaArch ≠ "none" then ":cc" ++ cudaArch else "")
      else "generic") := by
  unfold Adaptivecpp.mapVariantToTarget Adaptivecpp.archSuffix at h
  by_cases h1 : flow = "omplibraryonly" <;>
    by_cases h2 : flow = "ompaccelerated" <;>
      by_cases h3 : flow = "cudallvm" <;>
        by_cases h4 : flow = "cudanvcxx" <;>
          by_cases h5 : flow = "generic" <;>
            by_cases h6 : cudaArch = "none" <;>
              simp_all

theorem isInstallError_bind_parts {α β : Type} (x : Except PyErr α)
    (f : α → Except PyErr β)
    (hx : isInstallError x = true ∨ ∃ a, x = .ok a)
    (hf : ∀ a, isInstallError (f a) = true) :
    isInstallError (x.bind f) = true := by
  rcases hx with hx | ⟨a, rfl⟩
  · exact except_bind_isInstallError x f hx
  · simpa [Except.bind] using hf a

theorem isInstallError_bind_false {α β : Type} (x : Except PyErr α)
    (f : α → Except PyErr β) (hx : isInstallError x = false)
    (hf : ∀ a, isInstallError (f a) = false) :
    isInstallError (x.bind f) = false := by
  cases x with
  | error e => cases e <;> simp_all [isInstallError, Except.bind]
  | ok a => simpa [Except.bind] using hf a

theorem isInstallError_applyIfHasKey (c : Config) (k s : String) :
    isInstallError (applyIfHasKey c k s) = false := by
  unfold applyIfHasKey appendToStrKey
  split
  · split <;> rfl
  · rfl

theorem isInstallError_cudaLinkStep (config : Config)
    (cu : Option (String × Config)) (s : String) :
    isInstallError (Adaptivecpp.cudaLinkStep config cu s) = false := by
  unfold Adaptivecpp.cudaLinkStep
  split
  · exact isInstallError_bind_false _ _ (isInstallError_applyIfHasKey _ _ _) (fun _ => rfl)
  · exact isInstallError_bind_false _ _ (isInstallError_applyIfHasKey _ _ _) (fun _ => rfl)

theorem isInstallError_llvmStep_checked (libcxxFinds libcxxabiFinds libompFinds : List String)
    (setOrder : List String → List String) (config : Config)
    (cu : Option (String × Config))
    (h1 : libcxxFinds.length = 1) (h2 : libcxxabiFinds.length = 1)
    (h3 : libompFinds ≠ []) :
    isInstallError (Adaptivecpp.llvmStep true libcxxFinds libcxxabiFinds
      libompFinds setOrder config cu) = false := by
  have h3' : ¬(libompFinds.length = 0) := by
    simpa [List.length_eq_zero] using h3
  simp only [Adaptivecpp.llvmStep, h1, h2, h3', if_true, if_false, ite_true, ite_false,
    ne_eq, not_true_eq_false, if_neg, reduceIte]
  exact isInstallError_bind_false _ _ (isInstallError_cudaLinkStep _ _ _)
    (fun r => isInstallError_bind_false _ _ (isInstallError_applyIfHasKey _ _ _)
      (fun _ => rfl))

theorem isInstallError_noRestrictStep (b : Bool) (cu : Option (String × Config)) :
    isInstallError (Adaptivecpp.noRestrictStep b cu) = false := by
  unfold Adaptivecpp.noRestrictStep
  split
  · split
    · exact isInstallError_bind_false _ _ (isInstallError_applyIfHasKey _ _ _)
        (fun cc1 => isInstallError_bind_false _ _ (isInstallError_applyIfHasKey _ _ _)
          (fun _ => rfl))
    · rfl
  · rfl

theorem isInstallError_targetsStep (flow cudaArch : String) (config : Config) :
    isInstallError (Adaptivecpp.targetsStep flow cudaArch config) = false := by
  unfold Adaptivecpp.targetsStep
  split
  · split <;> rfl
  · rfl

theorem envHasVar_append (a b : List EnvMod) (v : String) :
    envHasVar (a ++ b) v = (envHasVar a v || envHasVar b v) := by
  simp [envHasVar, List.any_append]

theorem envHasVar_cons (m : EnvMod) (t : List EnvMod) (v : String) :
    envHasVar (m :: t) v = ((modVar m == v) || envHasVar t v) := by
  simp [envHasVar]

theorem envHasVar_nil (v : String) : envHasVar [] v = false := rfl

/-- C5. For every environment object and dependent spec, the dpcpp
package's `setup_run_environment`, `setup_dependent_build_environment` and
`setup_dependent_run_environment` apply exactly the same sequence of
environment modifications, namely those made by
`_setup_common_dependent_environment`: setting ONEAPI_ROOT, appending the
compiler and TBB paths to PATH, LD_LIBRARY_PATH, LIBRARY_PATH,
OCL_ICD_FILENAMES, the include and pkg-config paths, and setting
SYCL_INCLUDE_DIR_HINT and SYCL_LIBRARY_DIR_HINT only when not already
present. -/
theorem dpcpp_setup_environments_all_common (root : String) (env : List EnvMod)
    (dependentSpec : String) :
    Dpcpp.setup_run_environment root env =
      Dpcpp._setup_common_dependent_environment root env ∧
    Dpcpp.setup_dependent_build_environment root env dependentSpec =
      Dpcpp._setup_common_dependent_environment root env ∧
    Dpcpp.setup_dependent_run_environment root env dependentSpec =
      Dpcpp._setup_common_dependent_environment root env ∧
    Dpcpp._setup_common_dependent_environment root env =
      env ++ Dpcpp.commonMods root (envHasVar env "SYCL_INCLUDE_DIR_HINT")
        (envHasVar env "SYCL_LIBRARY_DIR_HINT") := by
  refine ⟨rfl, rfl, rfl, ?_⟩
  by_cases h1 : envHasVar env "SYCL_INCLUDE_DIR_HINT" = true <;>
    by_cases h2 : envHasVar env "SYCL_LIBRARY_DIR_HINT" = true <;>
      simp [Dpcpp._setup_common_dependent_environment, Dpcpp.commonMods,
        Dpcpp.libraryPaths, envHasVar_append, envHasVar_cons, envHasVar_nil,
        modVar, h1, h2]

/-- C7. `_validate_sanitizer_variant` raises a SpecError if and only if the
chosen set of sanitizer values contains `none` together with at least one
other value, or `thread` together with any of `address`, `leak` or
`memory`, or `memory` together with `address` or `leak`; every other
combination of the declared values is accepted without error. -/
theorem neso_validate_sanitizer_error_iff (values : List String)
    (hvals : ∀ v ∈ values, v ∈ Neso.sanitizerValues) (hnd : values.Nodup) :
    (∃ e, Neso._validate_sanitizer_variant values = .error e) ↔
      (("none" ∈ values ∧ 1 < values.length) ∨
       ("thread" ∈ values ∧
         ("address" ∈ values ∨ "leak" ∈ values ∨ "memory" ∈ values)) ∨
       ("memory" ∈ values ∧ ("address" ∈ values ∨ "leak" ∈ values))) := by
  unfold Neso._validate_sanitizer_variant
  split_ifs with h1 h2 h3 <;> simp_all

/-- Witness for C7: combining the thread and address sanitizers is
rejected, by the middle disjunct. -/
theorem neso_validate_sanitizer_error_iff_witness :
    (∃ e, Neso._validate_sanitizer_variant ["thread", "address"] = .error e) ↔
      (("none" ∈ (["thread", "address"] : List String) ∧
          1 < (["thread", "address"] : List String).length) ∨
       ("thread" ∈ (["thread", "address"] : List String) ∧
         ("address" ∈ (["thread", "address"] : List String) ∨
          "leak" ∈ (["thread", "address"] : List String) ∨
          "memory" ∈ (["thread", "address"] : List String))) ∨
       ("memory" ∈ (["thread", "address"] : List String) ∧
         ("address" ∈ (["thread", "address"] : List String) ∨
          "leak" ∈ (["thread", "address"] : List String)))) :=
  neso_validate_sanitizer_error_iff ["thread", "address"] (by decide) (by decide)

theorem flag_eq_iff (p q : String) (b : Bool) :
    (p = q ++ Nektar.hasfeature b) ↔
      ((b = true ∧ p = q ++ "ON") ∨ (b = false ∧ p = q ++ "OFF")) := by
  cases b <;> simp [Nektar.hasfeature]

/-- C8. For every concretized nektar spec, `cmake_args` emits
`-DNEKTAR_USE_MPI=ON` iff the spec has `+mpi` and `-DNEKTAR_USE_MPI=OFF`
otherwise, and likewise for the demos, solvers, fftw, arpack, hdf5, scotch
and python variants with their corresponding `-DNEKTAR_*` flags, while
`-DNEKTAR_USE_PETSC=OFF`, `-DNEKTAR_ERROR_ON_WARNINGS=OFF`,
`-DNEKTAR_BUILD_UTILITIES=ON` and `-DNEKTAR_USE_THREAD_SAFETY=ON` appear
unconditionally. -/
theorem nektar_cmake_args_flags (s : Nektar.Spec) :
    ("-DNEKTAR_USE_MPI=ON" ∈ Nektar.cmake_args s ↔ s.mpi = true) ∧
    ("-DNEKTAR_USE_MPI=OFF" ∈ Nektar.cmake_args s ↔ s.mpi = false) ∧
    ("-DNEKTAR_BUILD_DEMOS=ON" ∈ Nektar.cmake_args s ↔ s.demos = true) ∧
    ("-DNEKTAR_BUILD_DEMOS=OFF" ∈ Nektar.cmake_args s ↔ s.demos = false) ∧
    ("-DNEKTAR_BUILD_SOLVERS=ON" ∈ Nektar.cmake_args s ↔ s.solvers = true) ∧
    ("-DNEKTAR_BUILD_SOLVERS=OFF" ∈ Nektar.cmake_args s ↔ s.solvers = false) ∧
    ("-DNEKTAR_USE_FFTW=ON" ∈ Nektar.cmake_args s ↔ s.fftw = true) ∧
    ("-DNEKTAR_USE_FFTW=OFF" ∈ Nektar.cmake_args s ↔ s.fftw = false) ∧
    ("-DNEKTAR_USE_ARPACK=ON" ∈ Nektar.cmake_args s ↔ s.arpack = true) ∧
    ("-DNEKTAR_USE_ARPACK=OFF" ∈ Nektar.cmake_args s ↔ s.arpack = false) ∧
    ("-DNEKTAR_USE_HDF5=ON" ∈ Nektar.cmake_args s ↔ s.hdf5 = true) ∧
    ("-DNEKTAR_USE_HDF5=OFF" ∈ Nektar.cmake_args s ↔ s.hdf5 = false) ∧
    ("-DNEKTAR_USE_SCOTCH=ON" ∈ Nektar.cmake_args s ↔ s.scotch = true) ∧
    ("-DNEKTAR_USE_SCOTCH=OFF" ∈ Nektar.cmake_args s ↔ s.scotch = false) ∧
    ("-DNEKTAR_BUILD_PYTHON=ON" ∈ Nektar.cmake_args s ↔ s.python = true) ∧
    ("-DNEKTAR_BUILD_PYTHON=OFF" ∈ Nektar.cmake_args s ↔ s.python = false) ∧
    "-DNEKTAR_USE_PETSC=OFF" ∈ Nektar.cmake_args s ∧
    "-DNEKTAR_ERROR_ON_WARNINGS=OFF" ∈ Nektar.cmake_args s ∧
    "-DNEKTAR_BUILD_UTILITIES=ON" ∈ Nektar.cmake_args s ∧
    "-DNEKTAR_USE_THREAD_SAFETY=ON" ∈ Nektar.cmake_args s := by
  simp [Nektar.cmake_args, flag_eq_iff]

theorem splitOnComma_ne_nil (l : List Char) : splitOnComma l ≠ [] := by
  cases l with
  | nil => simp [splitOnComma]
  | cons c cs =>
    simp only [splitOnComma]
    split
    · simp
    · split <;> simp

theorem splitOnComma_append (l₁ l₂ : List Char) (h : ',' ∉ l₁) :
    splitOnComma (l₁ ++ l₂) =
      (l₁ ++ (splitOnComma l₂).headD []) :: (splitOnComma l₂).tail := by
  induction l₁ with
  | nil =>
    simp only [List.nil_append]
    cases hsc : splitOnComma l₂ with
    | nil => exact absurd hsc (splitOnComma_ne_nil l₂)
    | cons a t => simp
  | cons c cs ih =>
    have hc : ¬(c = ',') := fun hh => h (by simp [hh])
    have hcs : ',' ∉ cs := fun hh => h (List.mem_cons_of_mem _ hh)
    simp only [List.cons_append, splitOnComma, List.append_eq]
    rw [ih hcs]
    simp [hc]

theorem splitOnComma_no_comma (l : List Char) (h : ',' ∉ l) :
    splitOnComma l = [l] := by
  have h2 := splitOnComma_append l [] h
  simpa [splitOnComma] using h2

theorem splitOnComma_pair (l₁ l₂ : List Char) (h₁ : ',' ∉ l₁) (h₂ : ',' ∉ l₂) :
    splitOnComma (l₁ ++ ',' :: l₂) = [l₁, l₂] := by
  rw [splitOnComma_append l₁ (',' :: l₂) h₁]
  simp [splitOnComma, splitOnComma_no_comma l₂ h₂]

theorem rangePieceSatisfies_le (rank : String → Nat) (w v : String) :
    rangePieceSatisfies rank w (':' :: v.data) = decide (rank w ≤ rank v) := by
  simp [rangePieceSatisfies]

theorem rangePieceSatisfies_ge (rank : String → Nat) (w v : String)
    (hne : v.data ≠ []) (hcolon : ':' ∉ v.data) :
    rangePieceSatisfies rank w (v.data ++ [':']) = decide (rank v ≤ rank w) := by
  obtain ⟨c, rest, hcr⟩ := List.exists_cons_of_ne_nil hne
  have hc : ¬(c = ':') := by
    intro h
    rw [h] at hcr
    exact hcolon (hcr ▸ List.mem_cons_self _ _)
  unfold rangePieceSatisfies
  rw [if_neg, if_pos]
  · rw [List.dropLast_concat]
  · exact List.getLast?_concat _
  · rw [hcr]
    simp [hc]

/-- C6. For every list of version strings sorted in (strictly) descending
order that contains at least two versions, and every index `idx` within the
list, the constraint string returned by `_restrict_to_version versions idx`
is satisfied by every version in the list except `versions[idx]` and is not
satisfied by `versions[idx]`: the generated conflict pins each dpcpp/neso
version to exactly the matching OneAPI release. Versions are compared
through an order-reflecting rank; version strings are nonempty and free of
the `:` and `,` the constraint grammar uses. -/
theorem restrict_to_version_excludes_exactly_idx (rank : String → Nat)
    (versions : List String) (idx j : Nat)
    (hlen : 2 ≤ versions.length) (hidx : idx < versions.length)
    (hj : j < versions.length)
    (hdesc : versions.Pairwise (fun a b => rank b < rank a))
    (hclean : ∀ v ∈ versions, v ≠ "" ∧ ',' ∉ v.data ∧ ':' ∉ v.data) :
    spackRangeSatisfies rank (_restrict_to_version versions idx)
      (versions.getD j "") = true ↔ j ≠ idx := by
  have hlt : ∀ (a b : Nat) (ha : a < versions.length) (hb : b < versions.length),
      a < b → rank (versions.get ⟨b, hb⟩) < rank (versions.get ⟨a, ha⟩) := by
    intro a b ha hb hab
    exact List.pairwise_iff_get.mp hdesc ⟨a, ha⟩ ⟨b, hb⟩ hab
  have hcl : ∀ (i : Nat) (hi : i < versions.length),
      versions.get ⟨i, hi⟩ ≠ "" ∧ ',' ∉ (versions.get ⟨i, hi⟩).data ∧
        ':' ∉ (versions.get ⟨i, hi⟩).data :=
    fun i hi => hclean _ (versions.get_mem _ _)
  have hdata : ∀ (i : Nat) (hi : i < versions.length),
      (versions.get ⟨i, hi⟩).data ≠ [] := by
    intro i hi
    intro hd
    exact (hcl i hi).1 (String.ext hd)
  have hw : versions.getD j "" = versions.get ⟨j, hj⟩ := List.getD_eq_get _ _ hj
  unfold _restrict_to_version
  by_cases h0 : idx = 0
  · subst h0
    have h1 : 1 < versions.length := by omega
    have ha : versions.getD 1 "" = versions.get ⟨1, h1⟩ := List.getD_eq_get _ _ h1
    rw [if_pos rfl, hw, ha]
    unfold spackRangeSatisfies
    have hdat : ((":" ++ versions.get ⟨1, h1⟩).data) =
        ':' :: (versions.get ⟨1, h1⟩).data := by
      simp [String.data_append]
    rw [hdat]
    rw [splitOnComma_no_comma _ (by
      intro hm
      rcases List.mem_cons.mp hm with hm | hm
      · exact absurd hm (by decide)
      · exact (hcl 1 h1).2.1 hm)]
    rw [List.any_cons, List.any_nil, rangePieceSatisfies_le]
    simp only [Bool.or_false, decide_eq_true_eq]
    constructor
    · intro hle hj0
      subst hj0
      have hgt := hlt 0 1 hj h1 (by omega)
      omega
    · intro hne
      rcases Nat.lt_or_ge 1 j with h1j | h1j
      · exact Nat.le_of_lt (hlt 1 j h1 hj h1j)
      · have : j = 1 := by omega
        subst this
        exact Nat.le_refl _
  · by_cases hlast : idx = versions.length - 1
    · have hb : versions.length - 2 < versions.length := by omega
      have hab : versions.getD (versions.length - 2) "" =
        versions.get ⟨versions.length - 2, hb⟩ := List.getD_eq_get _ _ hb
      rw [if_neg h0, if_pos hlast, hw, hab]
      unfold spackRangeSatisfies
      have hdat : ((versions.get ⟨versions.length - 2, hb⟩ ++ ":").data) =
          (versions.get ⟨versions.length - 2, hb⟩).data ++ [':'] := by
        simp [String.data_append]
      rw [hdat]
      rw [splitOnComma_no_comma _ (by
        intro hm
        rcases List.mem_append.mp hm with hm | hm
        · exact (hcl _ hb).2.1 hm
        · exact absurd (List.mem_singleton.mp hm) (by decide))]
      rw [List.any_cons, List.any_nil,
        rangePieceSatisfies_ge rank _ _ (hdata _ hb) (hcl _ hb).2.2]
      simp only [Bool.or_false, decide_eq_true_eq]
      constructor
      · intro hle hjidx
        subst hjidx
        have := hlt (versions.length - 2) j hb hj (by omega)
        omega
      · intro hne
        have hj2 : j ≤ versions.length - 2 := by omega
        rcases Nat.lt_or_ge j (versions.length - 2) with hlt2 | hge2
        · exact Nat.le_of_lt (hlt j (versions.length - 2) hj hb hlt2)
        · have : j = versions.length - 2 := by omega
          subst this
          exact Nat.le_refl _
    · have hip : idx + 1 < versions.length := by omega
      have him : idx - 1 < versions.length := by omega
      have hap : versions.getD (idx + 1) "" = versions.get ⟨idx + 1, hip⟩ :=
        List.getD_eq_get _ _ hip
      have ham : versions.getD (idx - 1) "" = versions.get ⟨idx - 1, him⟩ :=
        List.getD_eq_get _ _ him
      rw [if_neg h0, if_neg hlast, hw, hap, ham]
      unfold spackRangeSatisfies
      have hsplit :
          ((":" ++ versions.get ⟨idx + 1, hip⟩ ++ "," ++ versions.get ⟨idx - 1, him⟩
            ++ ":").data) =
          (':' :: (versions.get ⟨idx + 1, hip⟩).data) ++
            ',' :: ((versions.get ⟨idx - 1, him⟩).data ++ [':']) := by
        simp [String.data_append, List.append_assoc]
      rw [hsplit]
      rw [splitOnComma_pair _ _
        (by
          intro hm
          rcases List.mem_cons.mp hm with hm | hm
          · exact absurd hm (by decide)
          · exact (hcl _ hip).2.1 hm)
        (by
          intro hm
          rcases List.mem_append.mp hm with hm | hm
          · exact (hcl _ him).2.1 hm
          · exact absurd (List.mem_singleton.mp hm) (by decide))]
      rw [List.any_cons, List.any_cons, List.any_nil, rangePieceSatisfies_le,
        rangePieceSatisfies_ge rank _ _ (hdata _ him) (hcl _ him).2.2]
      simp only [Bool.or_false, Bool.or_eq_true, decide_eq_true_eq]
      constructor
      · rintro (hle | hge) hjidx
        · subst hjidx
          have := hlt j (j + 1) hj hip (by omega)
          omega
        · subst hjidx
          have := hlt (j - 1) j him hj (by omega)
          omega
      · intro hne
        rcases Nat.lt_or_ge j idx with hji | hji
        · right
          rcases Nat.lt_or_ge j (idx - 1) with h2 | h2
          · exact Nat.le_of_lt (hlt j (idx - 1) hj him h2)
          · have : j = idx - 1 := by omega
            subst this
            exact Nat.le_refl _
        · left
          have hji2 : idx + 1 ≤ j := by omega
          rcases Nat.lt_or_ge (idx + 1) j with h2 | h2
          · exact Nat.le_of_lt (hlt (idx + 1) j hip hj h2)
          · have : j = idx + 1 := by omega
            subst this
            exact Nat.le_refl _

/-- Witness for C6 at a concrete input: versions `333 > 22 > 1`, ranked by
string length; the constraint built for index 1, `":1,333:"`, is satisfied
at index 0. -/
theorem restrict_to_version_excludes_exactly_idx_witness :
    spackRangeSatisfies String.length
      (_restrict_to_version ["333", "22", "1"] 1)
      ((["333", "22", "1"] : List String).getD 0 "") = true ↔ (0 : Nat) ≠ 1 :=
  restrict_to_version_excludes_exactly_idx String.length
    ["333", "22", "1"] 1 0 (by decide) (by decide) (by decide)
    (by decide) (by decide)

/-- C10. For every installed stdpython spec at version X.Y, the `command`
property searches prefix.bin for `python<X.Y>`, then `python<X>`, then
`python`, in that order, returns an Executable for the first of those paths
that exists, and raises a RuntimeError if and only if none of the three
exists. -/
theorem stdpython_command_search_order (x y : Nat) (rest : List Nat)
    (binDir : String) (fsExists : String → Bool) :
    (Stdpython.command (x :: y :: rest) binDir fsExists =
      (if fsExists (pyJoin binDir ("python" ++ toString x ++ "." ++ toString y)) then
        .ok (pyJoin binDir ("python" ++ toString x ++ "." ++ toString y))
      else if fsExists (pyJoin binDir ("python" ++ toString x)) then
        .ok (pyJoin binDir ("python" ++ toString x))
      else if fsExists (pyJoin binDir "python") then
        .ok (pyJoin binDir "python")
      else .error (.runtimeError "Unable to locate python command"))) ∧
    ((∃ e, Stdpython.command (x :: y :: rest) binDir fsExists = .error e) ↔
      (fsExists (pyJoin binDir ("python" ++ toString x ++ "." ++ toString y)) = false ∧
       fsExists (pyJoin binDir ("python" ++ toString x)) = false ∧
       fsExists (pyJoin binDir "python") = false)) := by
  have h2 : Stdpython.versionUpTo (x :: y :: rest) 2 =
      toString x ++ "." ++ toString y := rfl
  have h1 : Stdpython.versionUpTo (x :: y :: rest) 1 = toString x := rfl
  constructor
  · simp only [Stdpython.command, List.map, h2, h1, String.append_assoc,
      Stdpython.findFirstExisting]
    by_cases e2 : fsExists (pyJoin binDir ("python" ++ (toString x ++ ("." ++ toString y)))) = true <;>
      by_cases e1 : fsExists (pyJoin binDir ("python" ++ toString x)) = true <;>
        by_cases e0 : fsExists (pyJoin binDir ("python" ++ "")) = true <;>
          simp_all [String.append_assoc]
  · simp only [Stdpython.command, List.map, h2, h1, String.append_assoc,
      Stdpython.findFirstExisting]
    by_cases e2 : fsExists (pyJoin binDir ("python" ++ (toString x ++ ("." ++ toString y)))) = true <;>
      by_cases e1 : fsExists (pyJoin binDir ("python" ++ toString x)) = true <;>
        by_cases e0 : fsExists (pyJoin binDir ("python" ++ "")) = true <;>
          simp_all [String.append_assoc]

theorem collectStep_foldl_spec (suf : List String) :
    ∀ (pre acc : List String),
    (∀ x, x ∈ acc ↔ x ∈ pre) → acc.Nodup →
    acc.Pairwise (fun a b => (pre ++ suf).indexOf a < (pre ++ suf).indexOf b) →
    (∀ x, x ∈ suf.foldl Stdpython.collectStep acc ↔ x ∈ acc ∨ x ∈ suf) ∧
    (suf.foldl Stdpython.collectStep acc).Nodup ∧
    (suf.foldl Stdpython.collectStep acc).Pairwise
      (fun a b => (pre ++ suf).indexOf a < (pre ++ suf).indexOf b) := by
  induction suf with
  | nil =>
    intro pre acc h1 h2 h3
    refine ⟨fun x => ?_, h2, h3⟩
    simp
  | cons y ys ih =>
    intro pre acc h1 h2 h3
    have hassoc : (pre ++ [y]) ++ ys = pre ++ y :: ys := by simp
    by_cases hy : y ∈ acc
    · have hstep : Stdpython.collectStep acc y = acc := if_pos hy
      have h1' : ∀ x, x ∈ acc ↔ x ∈ pre ++ [y] := by
        intro x
        rw [h1 x]
        constructor
        · intro hx; exact List.mem_append.mpr (Or.inl hx)
        · intro hx
          rcases List.mem_append.mp hx with hx | hx
          · exact hx
          · rw [List.mem_singleton.mp hx]
            exact (h1 y).mp hy
      have h3' : acc.Pairwise
          (fun a b => ((pre ++ [y]) ++ ys).indexOf a < ((pre ++ [y]) ++ ys).indexOf b) := by
        rw [hassoc]; exact h3
      obtain ⟨m1, m2, m3⟩ := ih (pre ++ [y]) acc h1' h2 h3'
      rw [hassoc] at m3
      simp only [List.foldl_cons, hstep]
      refine ⟨fun x => ?_, m2, m3⟩
      rw [m1 x]
      constructor
      · rintro (hx | hx)
        · exact Or.inl hx
        · exact Or.inr (List.mem_cons_of_mem _ hx)
      · rintro (hx | hx)
        · exact Or.inl hx
        · rcases List.mem_cons.mp hx with hx | hx
          · exact Or.inl (hx ▸ hy)
          · exact Or.inr hx
    · have hstep : Stdpython.collectStep acc y = acc ++ [y] := if_neg hy
      have hynp : y ∉ pre := fun hc => hy ((h1 y).mpr hc)
      have h1' : ∀ x, x ∈ acc ++ [y] ↔ x ∈ pre ++ [y] := by
        intro x
        simp only [List.mem_append, List.mem_singleton]
        rw [h1 x]
      have h2' : (acc ++ [y]).Nodup := by
        rw [List.nodup_append]
        exact ⟨h2, List.nodup_singleton y, by simpa using hy⟩
      have h3' : (acc ++ [y]).Pairwise
          (fun a b => ((pre ++ [y]) ++ ys).indexOf a < ((pre ++ [y]) ++ ys).indexOf b) := by
        rw [hassoc]
        rw [List.pairwise_append]
        refine ⟨h3, List.pairwise_singleton _ _, ?_⟩
        intro a ha b hb
        rw [List.mem_singleton.mp hb]
        have hap : a ∈ pre := (h1 a).mp ha
        rw [List.indexOf_append_of_mem hap, List.indexOf_append_of_not_mem hynp,
          List.indexOf_cons_self]
        have := List.indexOf_lt_length.mpr hap
        omega
      obtain ⟨m1, m2, m3⟩ := ih (pre ++ [y]) (acc ++ [y]) h1' h2' h3'
      rw [hassoc] at m3
      simp only [List.foldl_cons, hstep]
      refine ⟨fun x => ?_, m2, m3⟩
      rw [m1 x]
      simp only [List.mem_append, List.mem_singleton, List.mem_cons]
      tauto

theorem collectPaths_eq_foldl_join (exts : List Stdpython.Ext) :
    Stdpython.collectPaths exts =
      ((exts.map Stdpython.keptLines).join).foldl Stdpython.collectStep [] := by
  unfold Stdpython.collectPaths
  suffices h : ∀ (es : List Stdpython.Ext) (acc : List String),
      es.foldl (fun a e => (Stdpython.keptLines e).foldl Stdpython.collectStep a) acc =
      ((es.map Stdpython.keptLines).join).foldl Stdpython.collectStep acc by
    exact h exts []
  intro es
  induction es with
  | nil => intro acc; rfl
  | cons e t ih =>
    intro acc
    have hj : ((Stdpython.keptLines e :: List.map Stdpython.keptLines t).join) =
        Stdpython.keptLines e ++ (List.map Stdpython.keptLines t).join := rfl
    rw [List.foldl_cons, List.map_cons, hj, List.foldl_append]
    exact ih _

/-- C9. `write_easy_install_pth` collects, over the sorted extensions in
order, the rstripped lines of each extension's `easy-install.pth`, skipping
empty lines, lines beginning with `import` or `#`, and setuptools egg lines
from extensions other than py-setuptools; the main file it writes lists
each surviving path exactly once, in order of first occurrence, between the
fixed header and footer lines — and when no path survives it removes the
main file instead of writing it, so the file is never left present but
stale. -/
theorem stdpython_write_easy_install_pth_paths (exts : List Stdpython.Ext) :
    (Stdpython.write_easy_install_pth exts =
      (if Stdpython.collectPaths exts = [] then .removed
       else .written (Stdpython.pthHeader :: Stdpython.collectPaths exts ++
         [Stdpython.pthFooter]))) ∧
    (Stdpython.collectPaths exts).Nodup ∧
    (∀ x, x ∈ Stdpython.collectPaths exts ↔
      x ∈ (exts.map Stdpython.keptLines).join) ∧
    (Stdpython.collectPaths exts).Pairwise
      (fun a b => ((exts.map Stdpython.keptLines).join).indexOf a <
        ((exts.map Stdpython.keptLines).join).indexOf b) ∧
    (Stdpython.write_easy_install_pth exts = .removed ↔
      (exts.map Stdpython.keptLines).join = []) := by
  have hbase := collectStep_foldl_spec ((exts.map Stdpython.keptLines).join) [] []
    (by simp) List.nodup_nil (List.Pairwise.nil)
  rw [List.nil_append] at hbase
  obtain ⟨m1, m2, m3⟩ := hbase
  rw [← collectPaths_eq_foldl_join] at m1 m2 m3
  have hmem : ∀ x, x ∈ Stdpython.collectPaths exts ↔
      x ∈ (exts.map Stdpython.keptLines).join := by
    intro x
    rw [m1 x]
    simp
  refine ⟨rfl, m2, hmem, m3, ?_⟩
  simp only [Stdpython.write_easy_install_pth]
  split
  · rename_i hnil
    simp only [true_iff]
    rw [List.eq_nil_iff_forall_not_mem]
    intro x hx
    exact (List.eq_nil_iff_forall_not_mem.mp hnil x) ((hmem x).mpr hx)
  · rename_i hnn
    simp only [reduceCtorEq, false_iff]
    intro hjoin
    apply hnn
    rw [List.eq_nil_iff_forall_not_mem]
    intro x hx
    rw [hjoin] at hmem
    exact (List.not_mem_nil x) ((hmem x).mp hx)

/-- C1 counterexample. The glob for the `nvc++` executable is a filesystem
search the recipe performs for a file it requires, and here it returns two
matches; the claim demands a fatal install error, but `Hipsycl.cmake_args`
raises nothing and proceeds with the first match
(`-DNVCXX_COMPILER=/x/nvc++`). -/
theorem hipsycl_cmake_args_nvcpp_two_matches_no_error :
    (["/x/nvc++", "/y/nvc++"] : List String).length = 2 ∧
    isInstallError (Hipsycl.cmake_args false false true [] [] "" false "/cuda"
      ["/x/nvc++", "/y/nvc++"]) = false ∧
    Hipsycl.cmake_args false false true [] [] "" false "/cuda"
      ["/x/nvc++", "/y/nvc++"] =
    .ok ["-DWITH_CPU_BACKEND:Bool=TRUE", "-DWITH_ROCM_BACKEND:Bool=FALSE",
         "-DCMAKE_C_FLAGS=-fopenmp", "-DCMAKE_CXX_FLAGS=-fopenmp",
         "-DCUDA_TOOLKIT_ROOT_DIR:String=/cuda", "-DWITH_CUDA_BACKEND:Bool=TRUE",
         "-DNVCXX_COMPILER=/x/nvc++", "-DWITH_CUDA_NVCXX_ONLY=ON",
         "-DWITH_ACCELERATED_CPU=OFF", "-DBUILD_CLANG_PLUGIN=OFF"] := by
  decide

/-- C1 amended. For the searches guarded by a `len(...) != 1` check — the
compiler-driver configuration file (`syclcc.json` / `acpp-core.json`),
`LLVMExports.cmake`, `__clang_cuda_runtime_wrapper.h`, `libc++.so` and
`libc++abi.so` — zero or multiple matches raise a fatal `InstallError` and
otherwise the unique match is used. For the `nvc++` glob an error is raised
only when there are zero matches; with several matches the first one is
used without complaint. For `libomp.so` no check is performed at all: the
first match is used, zero matches crash with an `IndexError` rather than an
install error, and once the three guarded searches have passed no
`InstallError` can be raised at all. -/
theorem search_unique_match_error_handling_amended :
    -- Hipsycl.filter_config_file: the syclcc.json / libc++ / libc++abi checks
    (∀ (s : List String) (rj : String → Config) (cc : String) (lv : Bool)
      (lx la : List String) (so : List String → List String),
      s.length ≠ 1 →
      isInstallError (Hipsycl.filter_config_file s rj cc lv lx la so) = true) ∧
    (∀ (s : List String) (rj : String → Config) (cc : String)
      (lx la : List String) (so : List String → List String),
      s.length = 1 → lx.length ≠ 1 →
      isInstallError (Hipsycl.filter_config_file s rj cc true lx la so) = true) ∧
    (∀ (s : List String) (rj : String → Config) (cc : String)
      (lx la : List String) (so : List String → List String),
      s.length = 1 → lx.length = 1 → la.length ≠ 1 →
      isInstallError (Hipsycl.filter_config_file s rj cc true lx la so) = true) ∧
    (∀ (s : List String) (rj : String → Config) (cc : String) (lv : Bool)
      (lx la : List String) (so : List String → List String) (out : String × Config),
      Hipsycl.filter_config_file s rj cc lv lx la so = .ok out →
      out.1 = s.headD "") ∧
    -- Hipsycl.cmake_args: LLVMExports / clang header checks, nvc++ glob
    (∀ (cu nv : Bool) (ex ic : List String) (bd : String) (ce : Bool)
      (cr : String) (ng : List String),
      ex.length ≠ 1 →
      isInstallError (Hipsycl.cmake_args true cu nv ex ic bd ce cr ng) = true) ∧
    (∀ (cu nv : Bool) (ex ic : List String) (bd : String) (ce : Bool)
      (cr : String) (ng : List String),
      ex.length = 1 → ic.length ≠ 1 →
      isInstallError (Hipsycl.cmake_args true cu nv ex ic bd ce cr ng) = true) ∧
    (∀ (lv cu : Bool) (ex ic : List String) (bd : String) (ce : Bool)
      (cr : String),
      isInstallError (Hipsycl.cmake_args lv cu true ex ic bd ce cr []) = true) ∧
    (∀ (lv cu nv : Bool) (ex ic : List String) (bd : String) (ce : Bool)
      (cr : String) (ng : List String) (args : List String),
      Hipsycl.cmake_args lv cu nv ex ic bd ce cr ng = .ok args →
      (lv = true →
        ("-DLLVM_DIR:String=" ++ pyDirname (ex.headD "")) ∈ args ∧
        ("-DCLANG_INCLUDE_PATH:String=" ++ pyDirname (ic.headD "")) ∈ args) ∧
      (nv = true → ("-DNVCXX_COMPILER=" ++ ng.headD "") ∈ args)) ∧
    -- Adaptivecpp.filter_config_file: config / libc++ / libc++abi / libomp
    (∀ (nv : Bool) (fl ar : String) (cf cu : List String) (rj : String → Config)
      (cc : String) (lv : Bool) (lx la lo : List String)
      (so : List String → List String),
      cf.length ≠ 1 →
      isInstallError (Adaptivecpp.filter_config_file nv fl ar cf cu rj cc lv
        lx la lo so) = true) ∧
    (∀ (nv : Bool) (fl ar : String) (cf cu : List String) (rj : String → Config)
      (cc : String) (lx la lo : List String) (so : List String → List String),
      cf.length = 1 → lx.length ≠ 1 →
      isInstallError (Adaptivecpp.filter_config_file nv fl ar cf cu rj cc true
        lx la lo so) = true) ∧
    (∀ (nv : Bool) (fl ar : String) (cf cu : List String) (rj : String → Config)
      (cc : String) (lx la lo : List String) (so : List String → List String),
      cf.length = 1 → lx.length = 1 → la.length ≠ 1 →
      isInstallError (Adaptivecpp.filter_config_file nv fl ar cf cu rj cc true
        lx la lo so) = true) ∧
    (∀ (nv : Bool) (fl ar : String) (cf cu : List String) (rj : String → Config)
      (cc : String) (lx la : List String) (so : List String → List String),
      cf.length = 1 → lx.length = 1 → la.length = 1 →
      Adaptivecpp.filter_config_file nv fl ar cf cu rj cc true lx la [] so =
        .error .indexError) ∧
    (∀ (nv : Bool) (fl ar : String) (cf cu : List String) (rj : String → Config)
      (cc : String) (lx la lo : List String) (so : List String → List String),
      cf.length = 1 → lx.length = 1 → la.length = 1 → lo ≠ [] →
      isInstallError (Adaptivecpp.filter_config_file nv fl ar cf cu rj cc true
        lx la lo so) = false) ∧
    (∀ (nv : Bool) (fl ar : String) (cf cu : List String) (rj : String → Config)
      (cc : String) (lv : Bool) (lx la lo : List String)
      (so : List String → List String)
      (out : (String × Config) × Option (String × Config)),
      Adaptivecpp.filter_config_file nv fl ar cf cu rj cc lv lx la lo so = .ok out →
      out.1.1 = cf.headD "") ∧
    -- Adaptivecpp.cmake_args: LLVMExports / clang header checks, nvc++ glob
    (∀ (fl ar : String) (cu nv op : Bool) (ex ic : List String) (bd : String)
      (ce : Bool) (cr : String) (ng : List String),
      ¬(fl = "cudallvm" ∧ ar = "none") → ex.length ≠ 1 →
      isInstallError (Adaptivecpp.cmake_args fl ar cu nv op true ex ic bd ce cr ng)
        = true) ∧
    (∀ (fl ar : String) (cu nv op : Bool) (ex ic : List String) (bd : String)
      (ce : Bool) (cr : String) (ng : List String),
      ¬(fl = "cudallvm" ∧ ar = "none") → ex.length = 1 → ic.length ≠ 1 →
      isInstallError (Adaptivecpp.cmake_args fl ar cu nv op true ex ic bd ce cr ng)
        = true) ∧
    (∀ (fl ar : String) (lv cu nv op : Bool) (ex ic : List String) (bd : String)
      (ce : Bool) (cr : String),
      ¬(fl = "cudallvm" ∧ ar = "none") → (nv || (fl == "cudanvcxx")) = true →
      isInstallError (Adaptivecpp.cmake_args fl ar cu nv op lv ex ic bd ce cr [])
        = true) ∧
    (∀ (fl ar : String) (lv cu nv op : Bool) (ex ic : List String) (bd : String)
      (ce : Bool) (cr : String) (ng : List String) (args : List String),
      Adaptivecpp.cmake_args fl ar cu nv op lv ex ic bd ce cr ng = .ok args →
      (lv = true →
        ("-DLLVM_DIR:String=" ++ pyDirname (ex.headD "")) ∈ args ∧
        ("-DCLANG_INCLUDE_PATH:String=" ++ pyDirname (ic.headD "")) ∈ args) ∧
      ((nv || (fl == "cudanvcxx")) = true →
        ("-DNVCXX_COMPILER=" ++ ng.headD "") ∈ args)) := by
  refine ⟨?_, ?_, ?_, ?_, ?_, ?_, ?_, ?_, ?_, ?_, ?_, ?_, ?_, ?_, ?_, ?_, ?_, ?_⟩
  · intro s rj cc lv lx la so h
    simp [Hipsycl.filter_config_file, h, isInstallError]
  · intro s rj cc lx la so h1 h2
    simp [Hipsycl.filter_config_file, h1, h2, isInstallError, Except.bind]
  · intro s rj cc lx la so h1 h2 h3
    simp [Hipsycl.filter_config_file, h1, h2, h3, isInstallError, Except.bind]
  · intro s rj cc lv lx la so out hok
    simp only [Hipsycl.filter_config_file] at hok
    split at hok
    · exact absurd hok (by simp)
    · split at hok
      · split at hok
        · exact absurd hok (by simp)
        · split at hok
          · exact absurd hok (by simp)
          · rw [except_bind_ok] at hok
            obtain ⟨c2, _, hok⟩ := hok
            injection hok with hok2
            rw [← hok2]
      · injection hok with hok2
        rw [← hok2]
  · intro cu nv ex ic bd ce cr ng h
    simp [Hipsycl.cmake_args, h, isInstallError, Except.bind]
  · intro cu nv ex ic bd ce cr ng h1 h2
    simp [Hipsycl.cmake_args, h1, h2, isInstallError, Except.bind]
  · intro lv cu ex ic bd ce cr
    simp only [Hipsycl.cmake_args]
    apply isInstallError_bind_parts
    · split
      · split
        · exact Or.inl rfl
        · split
          · exact Or.inl rfl
          · split
            · exact Or.inl rfl
            · exact Or.inr ⟨_, rfl⟩
      · exact Or.inr ⟨_, rfl⟩
    · intro args1
      simp [Except.bind, isInstallError]
  · intro lv cu nv ex ic bd ce cr ng args hok
    simp only [Hipsycl.cmake_args] at hok
    rw [except_bind_ok] at hok
    obtain ⟨args1, hpart, hok⟩ := hok
    rw [except_bind_ok] at hok
    obtain ⟨args3, hnv, hok⟩ := hok
    injection hok with hok2
    subst hok2
    constructor
    · intro hlv
      subst hlv
      simp only [if_true, ite_true, reduceIte] at hpart
      split at hpart
      · exact absurd hpart (by simp)
      · split at hpart
        · exact absurd hpart (by simp)
        · split at hpart
          · exact absurd hpart (by simp)
          · injection hpart with hp
            subst hp
            constructor <;> simp
    · intro hnvt
      subst hnvt
      simp only [if_true, ite_true, reduceIte] at hnv
      split at hnv
      · exact absurd hnv (by simp)
      · injection hnv with hp
        subst hp
        simp
  · intro nv fl ar cf cu rj cc lv lx la lo so h
    simp [Adaptivecpp.filter_config_file, h, isInstallError]
  · intro nv fl ar cf cu rj cc lx la lo so h1 h2
    simp [Adaptivecpp.filter_config_file, Adaptivecpp.llvmStep, h1, h2,
      isInstallError, Except.bind]
  · intro nv fl ar cf cu rj cc lx la lo so h1 h2 h3
    simp [Adaptivecpp.filter_config_file, Adaptivecpp.llvmStep, h1, h2, h3,
      isInstallError, Except.bind]
  · intro nv fl ar cf cu rj cc lx la so h1 h2 h3
    simp [Adaptivecpp.filter_config_file, Adaptivecpp.llvmStep, h1, h2, h3,
      Except.bind]
  · intro nv fl ar cf cu rj cc lx la lo so h1 h2 h3 h4
    have h1' : ¬(cf.length ≠ 1) := by simp [h1]
    simp only [Adaptivecpp.filter_config_file, h1', if_neg, ite_false, reduceIte]
    exact isInstallError_bind_false _ _
      (isInstallError_llvmStep_checked _ _ _ _ _ _ h2 h3 h4)
      (fun r => isInstallError_bind_false _ _ (isInstallError_noRestrictStep _ _)
        (fun cu3 => isInstallError_bind_false _ _ (isInstallError_targetsStep _ _ _)
          (fun _ => rfl)))
  · intro nv fl ar cf cu rj cc lv lx la lo so out hok
    simp only [Adaptivecpp.filter_config_file] at hok
    split at hok
    · exact absurd hok (by simp)
    · rw [except_bind_ok] at hok
      obtain ⟨r, _, hok⟩ := hok
      rw [except_bind_ok] at hok
      obtain ⟨cu3, _, hok⟩ := hok
      rw [except_bind_ok] at hok
      obtain ⟨c3, _, hok⟩ := hok
      injection hok with hok2
      rw [← hok2]
  · intro fl ar cu nv op ex ic bd ce cr ng hg h
    simp [Adaptivecpp.cmake_args, hg, h, isInstallError, Except.bind]
  · intro fl ar cu nv op ex ic bd ce cr ng hg h1 h2
    simp [Adaptivecpp.cmake_args, hg, h1, h2, isInstallError, Except.bind]
  · intro fl ar lv cu nv op ex ic bd ce cr hg hnv
    simp only [Adaptivecpp.cmake_args, hg, if_neg, ite_false, reduceIte]
    apply isInstallError_bind_parts
    · split
      · split
        · exact Or.inl rfl
        · split
          · exact Or.inl rfl
          · split
            · exact Or.inl rfl
            · exact Or.inr ⟨_, rfl⟩
      · exact Or.inr ⟨_, rfl⟩
    · intro args1
      simp [Except.bind, isInstallError, hnv]
  · intro fl ar lv cu nv op ex ic bd ce cr ng args hok
    simp only [Adaptivecpp.cmake_args] at hok
    split at hok
    · exact absurd hok (by simp)
    · rw [except_bind_ok] at hok
      obtain ⟨args1, hpart, hok⟩ := hok
      rw [except_bind_ok] at hok
      obtain ⟨args3, hnv2, hok⟩ := hok
      injection hok with hok2
      subst hok2
      constructor
      · intro hlv
        subst hlv
        simp only [if_true, ite_true, reduceIte] at hpart
        split at hpart
        · exact absurd hpart (by simp)
        · split at hpart
          · exact absurd hpart (by simp)
          · split at hpart
            · exact absurd hpart (by simp)
            · injection hpart with hp
              subst hp
              constructor <;> simp
      · intro hnvt
        rw [hnvt] at hnv2
        simp only [if_true, ite_true, reduceIte] at hnv2
        split at hnv2
        · exact absurd hnv2 (by simp)
        · injection hnv2 with hp
          subst hp
          simp

/-- C3 counterexample. With the spec, variants and filesystem state all
fixed (llvm in the spec, `libc++.so` and `libc++abi.so` found in two
different directories), two set-iteration orders that enumerate the same
`rpaths` set — as two interpreter runs with different string-hash seeds
may — produce different written file contents, so the patching output is
not a function of spec, variants and filesystem state alone. -/
theorem hipsycl_filter_config_file_order_dependent :
    (Hipsycl.rpathSet ["/l/a/libc++.so"] ["/l/b/libc++abi.so"] = ["/l/a", "/l/b"]) ∧
    (List.reverse ["/l/a", "/l/b"]).Perm (id ["/l/a", "/l/b"]) ∧
    Hipsycl.filter_config_file ["/p/syclcc.json"]
      (fun _ => [("default-cuda-link-line", JVal.str "ld")]) "cxx" true
      ["/l/a/libc++.so"] ["/l/b/libc++abi.so"] id ≠
    Hipsycl.filter_config_file ["/p/syclcc.json"]
      (fun _ => [("default-cuda-link-line", JVal.str "ld")]) "cxx" true
      ["/l/a/libc++.so"] ["/l/b/libc++abi.so"] List.reverse := by
  decide

theorem hipsycl_filter_order_congr (syclccFinds : List String)
    (readJson : String → Config) (compilerCxx : String) (llvmInSpec : Bool)
    (libcxxFinds libcxxabiFinds : List String)
    (ord1 ord2 : List String → List String)
    (h : ord1 (Hipsycl.rpathSet libcxxFinds libcxxabiFinds) =
      ord2 (Hipsycl.rpathSet libcxxFinds libcxxabiFinds)) :
    Hipsycl.filter_config_file syclccFinds readJson compilerCxx llvmInSpec
      libcxxFinds libcxxabiFinds ord1 =
    Hipsycl.filter_config_file syclccFinds readJson compilerCxx llvmInSpec
      libcxxFinds libcxxabiFinds ord2 := by
  simp only [Hipsycl.filter_config_file]
  rw [h]

theorem adaptivecpp_llvmStep_order_congr (llvmInSpec : Bool)
    (libcxxFinds libcxxabiFinds libompFinds : List String)
    (ord1 ord2 : List String → List String)
    (h : ord1 (Adaptivecpp.rpathSet libcxxFinds libcxxabiFinds libompFinds) =
      ord2 (Adaptivecpp.rpathSet libcxxFinds libcxxabiFinds libompFinds)) :
    Adaptivecpp.llvmStep llvmInSpec libcxxFinds libcxxabiFinds libompFinds ord1 =
    Adaptivecpp.llvmStep llvmInSpec libcxxFinds libcxxabiFinds libompFinds ord2 := by
  funext config cu
  simp only [Adaptivecpp.llvmStep]
  rw [h]

/-- C3 amended. For every fixed package spec, variant assignment and
filesystem state, the post-install JSON patching of hipSYCL and of
AdaptiveCpp writes identical configuration contents in any two executions
that enumerate the discovered rpath-directory set in the same order: the
output is a function of the spec, the variants, the filesystem state and
the run's Python set iteration order, and of nothing else. (By the
counterexample, runs whose set iteration orders differ can write different
bytes, so determinism holds only modulo that order.) -/
theorem filter_config_file_deterministic_given_set_order
    (nvcxxVariant : Bool) (flow cudaArch : String)
    (syclccFinds configFinds cudaFinds : List String)
    (readJson : String → Config) (compilerCxx : String) (llvmInSpec : Bool)
    (libcxxFinds libcxxabiFinds libompFinds : List String)
    (ord1 ord2 : List String → List String)
    (hhip : ord1 (Hipsycl.rpathSet libcxxFinds libcxxabiFinds) =
      ord2 (Hipsycl.rpathSet libcxxFinds libcxxabiFinds))
    (hacpp : ord1 (Adaptivecpp.rpathSet libcxxFinds libcxxabiFinds libompFinds) =
      ord2 (Adaptivecpp.rpathSet libcxxFinds libcxxabiFinds libompFinds)) :
    Hipsycl.filter_config_file syclccFinds readJson compilerCxx llvmInSpec
      libcxxFinds libcxxabiFinds ord1 =
    Hipsycl.filter_config_file syclccFinds readJson compilerCxx llvmInSpec
      libcxxFinds libcxxabiFinds ord2 ∧
    Adaptivecpp.filter_config_file nvcxxVariant flow cudaArch configFinds
      cudaFinds readJson compilerCxx llvmInSpec libcxxFinds libcxxabiFinds
      libompFinds ord1 =
    Adaptivecpp.filter_config_file nvcxxVariant flow cudaArch configFinds
      cudaFinds readJson compilerCxx llvmInSpec libcxxFinds libcxxabiFinds
      libompFinds ord2 := by
  constructor
  · exact hipsycl_filter_order_congr _ _ _ _ _ _ _ _ hhip
  · simp only [Adaptivecpp.filter_config_file]
    rw [adaptivecpp_llvmStep_order_congr _ _ _ _ _ _ hacpp]

/-- Witness for the amended C3 at a concrete input: two runs that enumerate
the rpath set identically (both in insertion order) write the same files. -/
theorem filter_config_file_deterministic_given_set_order_witness :
    Hipsycl.filter_config_file ["/p/syclcc.json"]
      (fun _ => [("default-cuda-link-line", JVal.str "ld")]) "cxx" true
      ["/l/a/libc++.so"] ["/l/b/libc++abi.so"] id =
    Hipsycl.filter_config_file ["/p/syclcc.json"]
      (fun _ => [("default-cuda-link-line", JVal.str "ld")]) "cxx" true
      ["/l/a/libc++.so"] ["/l/b/libc++abi.so"] (fun l => l.drop 0) ∧
    Adaptivecpp.filter_config_file false "omplibraryonly" "none"
      ["/p/acpp-core.json"] [] (fun _ => [("default-cuda-link-line", JVal.str "ld")])
      "cxx" true ["/l/a/libc++.so"] ["/l/b/libc++abi.so"] ["/l/c/libomp.so"] id =
    Adaptivecpp.filter_config_file false "omplibraryonly" "none"
      ["/p/acpp-core.json"] [] (fun _ => [("default-cuda-link-line", JVal.str "ld")])
      "cxx" true ["/l/a/libc++.so"] ["/l/b/libc++abi.so"] ["/l/c/libomp.so"]
      (fun l => l.drop 0) :=
  filter_config_file_deterministic_given_set_order false "omplibraryonly" "none"
    ["/p/syclcc.json"] ["/p/acpp-core.json"] []
    (fun _ => [("default-cuda-link-line", JVal.str "ld")]) "cxx" true
    ["/l/a/libc++.so"] ["/l/b/libc++abi.so"] ["/l/c/libomp.so"]
    id (fun l => l.drop 0) (by decide) (by decide)

/-- C2. After installing AdaptiveCpp, `filter_config_file` sets the
`default-cpu-cxx` key of the discovered configuration file to the real C++
compiler path, and if the configuration contains the key `default-targets`
it replaces its value according to the compilationflow variant:
omplibraryonly to `omp.library-only`, ompaccelerated to `omp.accelerated`,
cudallvm to `cuda` with `:sm_<cuda_arch>` appended when cuda_arch is not
`none`, cudanvcxx to `cuda-nvcxx` with `:cc<cuda_arch>` appended when
cuda_arch is not `none`, and generic to `generic`. -/
theorem adaptivecpp_filter_config_file_targets (nvcxxVariant : Bool)
    (flow cudaArch : String) (configFinds cudaFinds : List String)
    (readJson : String → Config) (compilerCxx : String) (llvmInSpec : Bool)
    (libcxxFinds libcxxabiFinds libompFinds : List String)
    (setOrder : List String → List String)
    (out : (String × Config) × Option (String × Config))
    (hok : Adaptivecpp.filter_config_file nvcxxVariant flow cudaArch configFinds
      cudaFinds readJson compilerCxx llvmInSpec libcxxFinds libcxxabiFinds
      libompFinds setOrder = .ok out) :
    lookupKey out.1.2 "default-cpu-cxx" = some (.str compilerCxx) ∧
    (hasKey (readJson (configFinds.headD "")) "default-targets" = true →
      lookupKey out.1.2 "default-targets" =
        some (.str (if flow = "omplibraryonly" then "omp.library-only"
          else if flow = "ompaccelerated" then "omp.accelerated"
          else if flow = "cudallvm" then
            "cuda" ++ (if cudaArch ≠ "none" then ":sm_" ++ cudaArch else "")
          else if flow = "cudanvcxx" then
            "cuda-nvcxx" ++ (if cudaArch ≠ "none" then ":cc" ++ cudaArch else "")
          else "generic"))) := by
  simp only [Adaptivecpp.filter_config_file] at hok
  split at hok
  · exact absurd hok (by simp)
  · rw [except_bind_ok] at hok
    obtain ⟨r, hllvm, hok⟩ := hok
    rw [except_bind_ok] at hok
    obtain ⟨cu3, hnr, hok⟩ := hok
    rw [except_bind_ok] at hok
    obtain ⟨c3, ht, hok⟩ := hok
    injection hok with hok2
    subst hok2
    constructor
    · rw [targetsStep_ok_frame _ _ _ _ ht _ (by decide)]
      rw [llvmStep_ok_main_frame _ _ _ _ _ _ r.1 _ r.2 hllvm _ (by decide) (by decide)]
      exact lookupKey_setKey_self _ _ _
    · intro hdt
      have hconfig : hasKey
          (setKey (readJson (configFinds.headD "")) "default-cpu-cxx"
            (JVal.str compilerCxx)) "default-targets" = true := by
        rw [hasKey_setKey, hdt]
        simp
      have hc2 : hasKey r.1 "default-targets" = true := by
        have hfr := llvmStep_ok_main_frame _ _ _ _ _ _ r.1 _ r.2 hllvm
          "default-targets" (by decide) (by decide)
        simp only [hasKey] at hconfig ⊢
        rw [hfr]
        exact hconfig
      obtain ⟨t, hmap, hval⟩ := targetsStep_ok_value _ _ _ _ ht hc2
      rw [hval, mapVariantToTarget_eq_claim _ _ _ hmap]

/-- Witness for C2 at a concrete run: the cudallvm flow with cuda_arch 80
rewrites `default-targets` to `cuda:sm_80` and `default-cpu-cxx` to the
real compiler. -/
theorem adaptivecpp_filter_config_file_targets_witness :
    lookupKey [("default-cpu-cxx", JVal.str "/usr/bin/g++"),
               ("default-targets", JVal.str "cuda:sm_80")] "default-cpu-cxx" =
      some (.str "/usr/bin/g++") ∧
    (hasKey [("default-cpu-cxx", JVal.str "wrap"),
             ("default-targets", JVal.str "omp")] "default-targets" = true →
      lookupKey [("default-cpu-cxx", JVal.str "/usr/bin/g++"),
                 ("default-targets", JVal.str "cuda:sm_80")] "default-targets" =
        some (.str (if ("cudallvm" : String) = "omplibraryonly" then "omp.library-only"
          else if ("cudallvm" : String) = "ompaccelerated" then "omp.accelerated"
          else if ("cudallvm" : String) = "cudallvm" then
            "cuda" ++ (if ("80" : String) ≠ "none" then ":sm_" ++ "80" else "")
          else if ("cudallvm" : String) = "cudanvcxx" then
            "cuda-nvcxx" ++ (if ("80" : String) ≠ "none" then ":cc" ++ "80" else "")
          else "generic"))) :=
  adaptivecpp_filter_config_file_targets false "cudallvm" "80"
    ["/p/acpp-core.json"] []
    (fun _ => [("default-cpu-cxx", JVal.str "wrap"),
               ("default-targets", JVal.str "omp")])
    "/usr/bin/g++" false [] [] [] id
    (("/p/acpp-core.json",
      [("default-cpu-cxx", JVal.str "/usr/bin/g++"),
       ("default-targets", JVal.str "cuda:sm_80")]), none)
    (by decide)
